import Mathlib

/-!
Shallow embedding of the `dewpoint` repository (src/dewpoint.py and src/wetbulb.py)
over the real numbers, together with theorems settling the frozen claims.

Python's `math.exp` / `math.log` / `math.log10` / `**` are modelled by
`Real.exp` / `Real.log` / `Real.logb 10` / `Real.rpow`; float arithmetic is
idealised as exact real arithmetic.  Fallible operations are modelled with
`Except PyError`:
  * `math.log` / `math.log10` on a non-positive argument raises `ValueError`
    ("math domain error") — modelled by an explicit guard;
  * a failing `assert` raises `AssertionError`;
  * `float ^ int` (bitwise xor on a float) raises `TypeError`;
  * falling through all branches of an `if/elif` chain and then reading the
    unassigned variable raises `UnboundLocalError`.
Division keeps Lean's total convention `x / 0 = 0`; the Python
`ZeroDivisionError` cases (for example `lambda_ + t = 0` inside
`saturation_vapour_pressure`) lie outside every input set used below, and the
theorems carry explicit non-degeneracy hypotheses where it matters.
-/

/-- Python exception kinds observable from the two modules. -/
inductive PyError where
  | valueError : PyError
  | assertionError : PyError
  | typeError : PyError
  | unboundLocalError : PyError
  deriving DecidableEq

namespace dewpoint

/-- Magnus parameter `alpha = 6.112` hPa (src/dewpoint.py line 17). -/
def alpha : ℝ := 6.112

/-- Magnus parameter `beta = 17.62` (src/dewpoint.py line 18). -/
def beta : ℝ := 17.62

/-- Magnus parameter `lambda_ = 243.12` °C (src/dewpoint.py line 19). -/
def lambda_ : ℝ := 243.12

/-- Lower validity bound `t_low = -45` (src/dewpoint.py line 20). -/
def t_low : ℝ := -45

/-- Upper validity bound `t_high = 60` (src/dewpoint.py line 21). -/
def t_high : ℝ := 60

/-- `saturation_vapour_pressure` (src/dewpoint.py lines 24-29):
`alpha * math.pow(math.e, (beta * temperature) / (lambda_ + temperature))`. -/
noncomputable def saturation_vapour_pressure (temperature : ℝ) : ℝ :=
  alpha * Real.exp 1 ^ (beta * temperature / (lambda_ + temperature))

/-- `vapour_pressure` (src/dewpoint.py lines 32-37):
`relative_humidity * saturation_vapour_pressure(temperature) / 100`. -/
noncomputable def vapour_pressure (temperature relative_humidity : ℝ) : ℝ :=
  relative_humidity * saturation_vapour_pressure temperature / 100

/-- Local `vp_over_alpha` of `dewpoint_1` (src/dewpoint.py line 41). -/
noncomputable def vp_over_alpha (temperature relative_humidity : ℝ) : ℝ :=
  vapour_pressure temperature relative_humidity / alpha

/-- The value computed by `dewpoint_1` (src/dewpoint.py lines 42-43):
`(lambda_ * math.log(vp_over_alpha)) / (beta - math.log(vp_over_alpha))`. -/
noncomputable def dewpoint_1_val (temperature relative_humidity : ℝ) : ℝ :=
  lambda_ * Real.log (vp_over_alpha temperature relative_humidity) /
    (beta - Real.log (vp_over_alpha temperature relative_humidity))

/-- `dewpoint_1` (src/dewpoint.py lines 40-45); `math.log` raises `ValueError`
on a non-positive argument. -/
noncomputable def dewpoint_1 (temperature relative_humidity : ℝ) : Except PyError ℝ :=
  if vp_over_alpha temperature relative_humidity ≤ 0 then .error .valueError
  else .ok (dewpoint_1_val temperature relative_humidity)

/-- Local `dp_zeroeth_part` of `dewpoint_2` (src/dewpoint.py lines 49-51):
`math.log(relative_humidity / 100) + (beta * temperature) / (lambda_ + temperature)`. -/
noncomputable def dp_zeroeth_part (temperature relative_humidity : ℝ) : ℝ :=
  Real.log (relative_humidity / 100) + beta * temperature / (lambda_ + temperature)

/-- The value computed by `dewpoint_2` (src/dewpoint.py lines 52-54):
`dp_first_part / dp_second_part` with `dp_first_part = lambda_ * dp_zeroeth_part`
and `dp_second_part = beta - dp_zeroeth_part`. -/
noncomputable def dewpoint_2_val (temperature relative_humidity : ℝ) : ℝ :=
  lambda_ * dp_zeroeth_part temperature relative_humidity /
    (beta - dp_zeroeth_part temperature relative_humidity)

/-- `dewpoint_2` (src/dewpoint.py lines 48-56); the guarded operation is
`math.log(relative_humidity / 100)`. -/
noncomputable def dewpoint_2 (temperature relative_humidity : ℝ) : Except PyError ℝ :=
  if relative_humidity / 100 ≤ 0 then .error .valueError
  else .ok (dewpoint_2_val temperature relative_humidity)

/-- Local `H` of `dewpoint_3` (src/dewpoint.py line 60):
`(math.log10(rh) - 2) / 0.4343 + (beta * t) / (lambda_ + t)`. -/
noncomputable def dewpoint_3_H (t rh : ℝ) : ℝ :=
  (Real.logb 10 rh - 2) / 0.4343 + beta * t / (lambda_ + t)

/-- The value computed by `dewpoint_3` (src/dewpoint.py line 61):
`lambda_ * H / (beta - H)`. -/
noncomputable def dewpoint_3_val (t rh : ℝ) : ℝ :=
  lambda_ * dewpoint_3_H t rh / (beta - dewpoint_3_H t rh)

/-- `dewpoint_3` (src/dewpoint.py lines 59-63); the guarded operation is
`math.log10(rh)`. -/
noncomputable def dewpoint_3 (t rh : ℝ) : Except PyError ℝ :=
  if rh ≤ 0 then .error .valueError
  else .ok (dewpoint_3_val t rh)

/-- `dewpoint_all` (src/dewpoint.py lines 66-78): computes the three
derivations, then `assert diff1 < diff2 < allowed_difference` with
`diff1 = abs(dp2 - dp1)`, `diff2 = abs(dp3 - dp1)` and
`allowed_difference = 0.001`, returning `dp1` when the assert passes. -/
noncomputable def dewpoint_all (t rh : ℝ) : Except PyError ℝ :=
  (dewpoint_1 t rh).bind fun dp1 =>
    (dewpoint_2 t rh).bind fun dp2 =>
      (dewpoint_3 t rh).bind fun dp3 =>
        if |dp2 - dp1| < |dp3 - dp1| ∧ |dp3 - dp1| < 0.001 then .ok dp1
        else .error .assertionError

/-- `relative_humidity` (src/dewpoint.py lines 81-84):
`saturation_vapour_pressure(td) / saturation_vapour_pressure(t)`. -/
noncomputable def relative_humidity (t td : ℝ) : ℝ :=
  saturation_vapour_pressure td / saturation_vapour_pressure t

/-- Local `pst` of `temperature` (src/dewpoint.py lines 88-89):
`saturation_vapour_pressure(td) / rhd` with `rhd = rh / 100`. -/
noncomputable def temperature_pst (td rh : ℝ) : ℝ :=
  saturation_vapour_pressure td / (rh / 100)

/-- The value computed by `temperature` (src/dewpoint.py line 93):
`(lambda_ * math.log(pst / alpha)) / (beta - math.log(pst / alpha))`. -/
noncomputable def temperature_val (td rh : ℝ) : ℝ :=
  lambda_ * Real.log (temperature_pst td rh / alpha) /
    (beta - Real.log (temperature_pst td rh / alpha))

/-- `temperature` (src/dewpoint.py lines 87-95); the guarded operation is
`math.log(pst / alpha)`. -/
noncomputable def temperature (td rh : ℝ) : Except PyError ℝ :=
  if temperature_pst td rh / alpha ≤ 0 then .error .valueError
  else .ok (temperature_val td rh)

end dewpoint

namespace wetbulb

/-- `TEMP_ZEROCELSIUS = 273.15` K (src/wetbulb.py line 24). -/
def TEMP_ZEROCELSIUS : ℝ := 273.15

/-- `POISSON_DRY_AIR = 0.2854` (src/wetbulb.py line 28). -/
def POISSON_DRY_AIR : ℝ := 0.2854

/-- `kelvin2celsius` (src/wetbulb.py lines 31-32). -/
def kelvin2celsius (temperature : ℝ) : ℝ := temperature - TEMP_ZEROCELSIUS

/-- `celsius2kelvin` (src/wetbulb.py lines 35-36). -/
def celsius2kelvin (temperature : ℝ) : ℝ := temperature + TEMP_ZEROCELSIUS

/-- Local constant `svp1 = 6.112` of `wetbulb_temperature_celsius` (line 68). -/
def svp1 : ℝ := 6.112

/-- Local constant `svp2 = 17.67` (src/wetbulb.py line 69). -/
def svp2 : ℝ := 17.67

/-- Local constant `svp3 = 29.65` (src/wetbulb.py line 70). -/
def svp3 : ℝ := 29.65

/-- Local constant `svp4 = 243.5` (src/wetbulb.py line 71). -/
def svp4 : ℝ := 243.5

/-- Local constant `ep2 = 0.622` (src/wetbulb.py line 72). -/
def ep2 : ℝ := 0.622

/-- Local constant `big_a_k = 2675.0` (src/wetbulb.py line 73). -/
def big_a_k : ℝ := 2675.0

/-- Local constant `po = 1000.0` (src/wetbulb.py line 74). -/
def po : ℝ := 1000.0

/-- Local constant `lam = 1 / POISSON_DRY_AIR` (src/wetbulb.py line 76). -/
noncomputable def lam : ℝ := 1 / POISSON_DRY_AIR

/-- Local `GCX = GC / (1000.0 * 4.186)` with `GC = 461.5` of
`dewpoint_temperature_kelvin` (src/wetbulb.py lines 52-53). -/
noncomputable def GCX : ℝ := 461.5 / (1000.0 * 4.186)

/-- Local `LHV = (597.3 - 0.57 * (temperature_kelvin - 273.0)) / GCX`
(src/wetbulb.py line 55). -/
noncomputable def LHV (temperature_kelvin : ℝ) : ℝ :=
  (597.3 - 0.57 * (temperature_kelvin - 273.0)) / GCX

/-- The value `TDK` computed by `dewpoint_temperature_kelvin`
(src/wetbulb.py lines 56-60). -/
noncomputable def dewpoint_temperature_kelvin_val
    (relative_humidity temperature_kelvin : ℝ) : ℝ :=
  temperature_kelvin * LHV temperature_kelvin /
    (LHV temperature_kelvin -
      temperature_kelvin * Real.log (relative_humidity * 0.01))

/-- `dewpoint_temperature_kelvin` (src/wetbulb.py lines 49-62); the guarded
operation is `math.log(relative_humidity * 0.01)`. -/
noncomputable def dewpoint_temperature_kelvin
    (relative_humidity temperature_kelvin : ℝ) : Except PyError ℝ :=
  if relative_humidity * 0.01 ≤ 0 then .error .valueError
  else .ok (dewpoint_temperature_kelvin_val relative_humidity temperature_kelvin)

/-- Local `p = ps / 100.0` of `wetbulb_temperature_celsius` (line 82). -/
noncomputable def p (ps : ℝ) : ℝ := ps / 100.0

/-- Local `U` (src/wetbulb.py lines 84-86). -/
noncomputable def U (temp_drybulb temp_dewpoint : ℝ) : ℝ :=
  Real.exp (svp2 * kelvin2celsius temp_dewpoint / (svp4 + kelvin2celsius temp_dewpoint)) /
    Real.exp (svp2 * kelvin2celsius temp_drybulb / (kelvin2celsius temp_drybulb + svp4))

/-- Local `es` (src/wetbulb.py lines 88-91), piecewise on
`temp_drybulb > TEMP_ZEROCELSIUS`. -/
noncomputable def es (temp_drybulb : ℝ) : ℝ :=
  if TEMP_ZEROCELSIUS < temp_drybulb then
    svp1 * Real.exp (svp2 * kelvin2celsius temp_drybulb / (kelvin2celsius temp_drybulb + svp4))
  else svp1 * Real.exp (22.514 - 6.15e3 / temp_drybulb)

/-- Local `e = U * es` (src/wetbulb.py line 93). -/
noncomputable def e (temp_drybulb temp_dewpoint : ℝ) : ℝ :=
  U temp_drybulb temp_dewpoint * es temp_drybulb

/-- Local `temp_lifted_condensation_level` (src/wetbulb.py lines 95-102). -/
noncomputable def temp_lifted_condensation_level (temp_drybulb temp_dewpoint : ℝ) : ℝ :=
  1.0 / (1.0 / (temp_dewpoint - 56.0) +
    Real.log (temp_drybulb / temp_dewpoint) / 800.0) + 56.0

/-- Local `r = ep2 * e / (p - e)` (src/wetbulb.py line 103). -/
noncomputable def r (temp_drybulb temp_dewpoint ps : ℝ) : ℝ :=
  ep2 * e temp_drybulb temp_dewpoint / (p ps - e temp_drybulb temp_dewpoint)

/-- Local `temp_potential_lifted_condensation_level` (src/wetbulb.py lines 105-109). -/
noncomputable def temp_potential_lifted_condensation_level
    (temp_drybulb temp_dewpoint ps : ℝ) : ℝ :=
  temp_drybulb * (po / (p ps - e temp_drybulb temp_dewpoint)) ^ POISSON_DRY_AIR *
    (temp_drybulb / temp_lifted_condensation_level temp_drybulb temp_dewpoint) ^
      (0.28 * r temp_drybulb temp_dewpoint ps)

/-- Local `temp_equivalent_potential` (src/wetbulb.py lines 110-112). -/
noncomputable def temp_equivalent_potential (temp_drybulb temp_dewpoint ps : ℝ) : ℝ :=
  temp_potential_lifted_condensation_level temp_drybulb temp_dewpoint ps *
    Real.exp ((3036.0 / temp_lifted_condensation_level temp_drybulb temp_dewpoint - 1.78) *
      r temp_drybulb temp_dewpoint ps * (1.0 + 0.448 * r temp_drybulb temp_dewpoint ps))

/-- Local `pressure_nondimensional = (p / po) ** (1.0 / lam)` (lines 114-116). -/
noncomputable def pressure_nondimensional (ps : ℝ) : ℝ :=
  (p ps / po) ^ (1.0 / lam)

/-- Local `TE = temp_equivalent_potential * pressure_nondimensional` (line 117). -/
noncomputable def TE (temp_drybulb temp_dewpoint ps : ℝ) : ℝ :=
  temp_equivalent_potential temp_drybulb temp_dewpoint ps * pressure_nondimensional ps

/-- Local `es_te` (src/wetbulb.py lines 119-122), piecewise on
`TE > TEMP_ZEROCELSIUS`. -/
noncomputable def es_te (temp_drybulb temp_dewpoint ps : ℝ) : ℝ :=
  if TEMP_ZEROCELSIUS < TE temp_drybulb temp_dewpoint ps then
    svp1 * Real.exp (svp2 * (TE temp_drybulb temp_dewpoint ps - TEMP_ZEROCELSIUS) /
      (TE temp_drybulb temp_dewpoint ps - svp3))
  else svp1 * Real.exp (22.514 - 6.15e3 / TE temp_drybulb temp_dewpoint ps)

/-- Local `rs_te = ep2 * es_te / (p - es_te)` (src/wetbulb.py line 124). -/
noncomputable def rs_te (temp_drybulb temp_dewpoint ps : ℝ) : ℝ :=
  ep2 * es_te temp_drybulb temp_dewpoint ps / (p ps - es_te temp_drybulb temp_dewpoint ps)

/-- Local `k1_pi` (src/wetbulb.py lines 126-128). -/
noncomputable def k1_pi (ps : ℝ) : ℝ :=
  -38.5 * pressure_nondimensional ps ^ 2 + 137.81 * pressure_nondimensional ps - 53.737

/-- Local `k2_pi` (src/wetbulb.py lines 129-131). -/
noncomputable def k2_pi (ps : ℝ) : ℝ :=
  -4.392 * pressure_nondimensional ps ^ 2 + 56.831 * pressure_nondimensional ps - 0.384

/-- Local `cote = (TEMP_ZEROCELSIUS / TE) ** lam` (src/wetbulb.py line 133). -/
noncomputable def cote (temp_drybulb temp_dewpoint ps : ℝ) : ℝ :=
  (TEMP_ZEROCELSIUS / TE temp_drybulb temp_dewpoint ps) ^ lam

/-- Local `D_pi = 1.0 / (0.1859 * pressure_nondimensional / po + 0.6512)` (line 134). -/
noncomputable def D_pi (ps : ℝ) : ℝ :=
  1.0 / (0.1859 * pressure_nondimensional ps / po + 0.6512)

/-- `wetbulb_temperature_celsius` (src/wetbulb.py lines 65-148).

The first guard models the `ValueError` of
`math.log(temp_drybulb / temp_dewpoint)` inside
`temp_lifted_condensation_level` (line 99).

In the `cote > D_pi` branch the source (line 137) reads
`d_este = svp2 * svp4 / (TE - TEMP_ZEROCELSIUS + svp4) ^ 2`.
By Python precedence this parses as
`(svp2 * svp4 / (TE - TEMP_ZEROCELSIUS + svp4)) ^ 2` and `^` is bitwise xor,
which is unsupported between `float` and `int`, so this branch raises
`TypeError` instead of computing eq. 4.8 — modelled as `.error .typeError`.

If no branch of the `if/elif` chain assigned `tempc_wetbulb`, the final
`return tempc_wetbulb` would raise `UnboundLocalError` — modelled by the
last arm. -/
noncomputable def wetbulb_temperature_celsius
    (temp_drybulb temp_dewpoint ps : ℝ) : Except PyError ℝ :=
  if temp_drybulb / temp_dewpoint ≤ 0 then .error .valueError
  else if D_pi ps < cote temp_drybulb temp_dewpoint ps then .error .typeError
  else if 1.0 ≤ cote temp_drybulb temp_dewpoint ps ∧
      cote temp_drybulb temp_dewpoint ps ≤ D_pi ps then
    .ok (k1_pi ps - k2_pi ps * cote temp_drybulb temp_dewpoint ps)
  else if 0.4 ≤ cote temp_drybulb temp_dewpoint ps ∧
      cote temp_drybulb temp_dewpoint ps < 1.0 then
    .ok ((k1_pi ps - 1.21) - (k2_pi ps - 1.21) * cote temp_drybulb temp_dewpoint ps)
  else if cote temp_drybulb temp_dewpoint ps < 0.4 then
    .ok ((k1_pi ps - 2.66) - (k2_pi ps - 1.21) * cote temp_drybulb temp_dewpoint ps +
      0.58 / cote temp_drybulb temp_dewpoint ps)
  else .error .unboundLocalError

/-- `wetbulb_temperature` (src/wetbulb.py lines 39-47): converts to Kelvin,
derives the latent-heat dewpoint, and calls `wetbulb_temperature_celsius`
with the hard-coded pressure `101300`. -/
noncomputable def wetbulb_temperature (temperature relative_humidity : ℝ) : Except PyError ℝ :=
  (dewpoint_temperature_kelvin relative_humidity (celsius2kelvin temperature)).bind
    fun temperature_dewpoint_kelvin =>
      wetbulb_temperature_celsius (celsius2kelvin temperature)
        temperature_dewpoint_kelvin 101300

end wetbulb

namespace dewpoint

lemma saturation_vapour_pressure_eq (t : ℝ) :
    saturation_vapour_pressure t = alpha * Real.exp (beta * t / (lambda_ + t)) := by
  rw [saturation_vapour_pressure, Real.exp_one_rpow]

lemma saturation_vapour_pressure_pos (t : ℝ) : 0 < saturation_vapour_pressure t := by
  rw [saturation_vapour_pressure_eq]
  have h1 : (0:ℝ) < alpha := by norm_num [alpha]
  exact mul_pos h1 (Real.exp_pos _)

lemma vp_over_alpha_eq (t rh : ℝ) :
    vp_over_alpha t rh = rh / 100 * Real.exp (beta * t / (lambda_ + t)) := by
  have ha : (alpha : ℝ) ≠ 0 := by norm_num [alpha]
  rw [vp_over_alpha, vapour_pressure, saturation_vapour_pressure_eq]
  field_simp
  ring

lemma vp_over_alpha_pos (t rh : ℝ) (h : 0 < rh) : 0 < vp_over_alpha t rh := by
  rw [vp_over_alpha_eq]
  exact mul_pos (by positivity) (Real.exp_pos _)

lemma log_vp_over_alpha (t rh : ℝ) (h : 0 < rh) :
    Real.log (vp_over_alpha t rh) = dp_zeroeth_part t rh := by
  rw [vp_over_alpha_eq, dp_zeroeth_part,
    Real.log_mul (by positivity) (Real.exp_ne_zero _), Real.log_exp]

lemma dewpoint_1_eq_ok (t rh : ℝ) (h : 0 < rh) :
    dewpoint_1 t rh = .ok (dewpoint_1_val t rh) := by
  rw [dewpoint_1, if_neg (not_le.mpr (vp_over_alpha_pos t rh h))]

lemma dewpoint_2_eq_ok (t rh : ℝ) (h : 0 < rh) :
    dewpoint_2 t rh = .ok (dewpoint_2_val t rh) := by
  rw [dewpoint_2, if_neg (not_le.mpr (by positivity))]

lemma dewpoint_3_eq_ok (t rh : ℝ) (h : 0 < rh) :
    dewpoint_3 t rh = .ok (dewpoint_3_val t rh) := by
  rw [dewpoint_3, if_neg (not_le.mpr h)]

/-- In exact real arithmetic the first two derivations coincide. -/
lemma dewpoint_1_val_eq_dewpoint_2_val (t rh : ℝ) (h : 0 < rh) :
    dewpoint_1_val t rh = dewpoint_2_val t rh := by
  rw [dewpoint_1_val, dewpoint_2_val, log_vp_over_alpha t rh h]

lemma dewpoint_all_unfold (t rh : ℝ) (h : 0 < rh) :
    dewpoint_all t rh =
      if |dewpoint_2_val t rh - dewpoint_1_val t rh| <
            |dewpoint_3_val t rh - dewpoint_1_val t rh| ∧
          |dewpoint_3_val t rh - dewpoint_1_val t rh| < 0.001 then
        .ok (dewpoint_1_val t rh)
      else .error .assertionError := by
  rw [dewpoint_all, dewpoint_1_eq_ok t rh h, dewpoint_2_eq_ok t rh h,
    dewpoint_3_eq_ok t rh h]
  rfl

lemma logb_ten_hundred : Real.logb 10 100 = 2 := by
  have h10 : Real.log 10 ≠ 0 := ne_of_gt (Real.log_pos (by norm_num))
  have h100 : (100 : ℝ) = 10 ^ (2 : ℕ) := by norm_num
  rw [Real.logb, h100, Real.log_pow]
  field_simp

/-- At `rh = 100` all three derivations agree exactly, so the strict chained
comparison `diff1 < diff2` fails (`0 < 0`) and the assert fires. -/
lemma dewpoint_all_rh100 (t : ℝ) : dewpoint_all t 100 = .error .assertionError := by
  have h2 : dewpoint_2_val t 100 = dewpoint_1_val t 100 :=
    (dewpoint_1_val_eq_dewpoint_2_val t 100 (by norm_num)).symm
  have h3 : dewpoint_3_val t 100 = dewpoint_2_val t 100 := by
    rw [dewpoint_3_val, dewpoint_2_val, dewpoint_3_H, dp_zeroeth_part,
      logb_ten_hundred]
    norm_num
  rw [dewpoint_all_unfold t 100 (by norm_num), h2, h3, h2]
  simp

end dewpoint

/-- C10: the public wet-bulb entry point converts its Celsius input to Kelvin,
derives the latent-heat dewpoint at that Kelvin temperature, and evaluates
`wetbulb_temperature_celsius` at the hard-coded pressure `101300` Pa; no other
pressure is reachable through the public interface. -/
theorem c10_wetbulb_pressure_hardcoded (temperature relative_humidity : ℝ) :
    wetbulb.wetbulb_temperature temperature relative_humidity =
      (wetbulb.dewpoint_temperature_kelvin relative_humidity
          (wetbulb.celsius2kelvin temperature)).bind
        fun temperature_dewpoint_kelvin =>
          wetbulb.wetbulb_temperature_celsius (wetbulb.celsius2kelvin temperature)
            temperature_dewpoint_kelvin 101300 :=
  rfl

section LogBounds

lemma abs_neg_024 : |(-0.024 : ℝ)| = 0.024 := by
  rw [abs_of_neg] <;> norm_num

lemma log_1024_pow : Real.log 1024 = 10 * Real.log 2 := by
  rw [show (1024 : ℝ) = 2 ^ (10 : ℕ) by norm_num, Real.log_pow]
  push_cast
  ring

lemma log_1024_split : Real.log 1024 = 3 * Real.log 10 + Real.log 1.024 := by
  rw [show (1024 : ℝ) = 1000 * 1.024 by norm_num,
    Real.log_mul (by norm_num) (by norm_num),
    show (1000 : ℝ) = 10 ^ (3 : ℕ) by norm_num, Real.log_pow]
  push_cast
  ring

lemma log_1p024_bounds :
    0.02371651 ≤ Real.log 1.024 ∧ Real.log 1.024 ≤ 0.02371654 := by
  have h := Real.abs_log_sub_add_sum_range_le
    (x := (-0.024 : ℝ)) (by rw [abs_neg_024]; norm_num) 4
  rw [show (1 : ℝ) - (-0.024) = 1.024 by norm_num, abs_neg_024] at h
  simp only [Finset.sum_range_succ, Finset.sum_range_zero] at h
  rw [abs_le] at h
  obtain ⟨h1, h2⟩ := h
  norm_num at h1 h2
  constructor <;> linarith

lemma log_ten_bounds :
    2.30258508 < Real.log 10 ∧ Real.log 10 < 2.30258510 := by
  have hkey : 10 * Real.log 2 = 3 * Real.log 10 + Real.log 1.024 := by
    rw [← log_1024_pow, log_1024_split]
  have hlo := Real.log_two_gt_d9
  have hhi := Real.log_two_lt_d9
  obtain ⟨ha, hb⟩ := log_1p024_bounds
  constructor <;> nlinarith

/-- Upper bound `log (1 - x) ≤ -x` for `0 ≤ x < 1`. -/
lemma log_one_sub_le {x : ℝ} (h0 : 0 ≤ x) (h1 : x < 1) : Real.log (1 - x) ≤ -x := by
  have := Real.log_le_sub_one_of_pos (x := 1 - x) (by linarith)
  linarith

/-- Lower bound `-x / (1 - x) ≤ log (1 - x)` for `0 ≤ x < 1`. -/
lemma log_one_sub_ge {x : ℝ} (h0 : 0 ≤ x) (h1 : x < 1) :
    -x / (1 - x) ≤ Real.log (1 - x) := by
  have hpos : (0 : ℝ) < 1 - x := by linarith
  have hinv := Real.log_le_sub_one_of_pos (x := (1 - x)⁻¹) (by positivity)
  have hlog : Real.log (1 - x)⁻¹ = -Real.log (1 - x) := Real.log_inv _
  have harith : (1 - x)⁻¹ - 1 = x / (1 - x) := by field_simp
  rw [hlog, harith] at hinv
  have : -Real.log (1 - x) ≤ x / (1 - x) := hinv
  have hdiv : -(x / (1 - x)) = -x / (1 - x) := by ring
  linarith [this]

end LogBounds

namespace dewpoint

lemma lambda_pos : (0 : ℝ) < lambda_ := by norm_num [lambda_]

lemma beta_pos : (0 : ℝ) < beta := by norm_num [beta]

/-- `dewpoint_3_H` rewritten through natural logarithms:
`H = log(rh/100) / (0.4343 · log 10) + β·t/(λ+t)`. -/
lemma dewpoint_3_H_eq (t rh : ℝ) (h : 0 < rh) :
    dewpoint_3_H t rh =
      Real.log (rh / 100) / (0.4343 * Real.log 10) + beta * t / (lambda_ + t) := by
  have h10 : Real.log 10 ≠ 0 := ne_of_gt (Real.log_pos (by norm_num))
  have hlogb : Real.logb 10 rh - 2 = Real.log (rh / 100) / Real.log 10 := by
    rw [Real.logb, Real.log_div (ne_of_gt h) (by norm_num),
      show (100 : ℝ) = 10 ^ (2 : ℕ) by norm_num, Real.log_pow]
    push_cast
    field_simp
    ring
  rw [dewpoint_3_H, hlogb, div_div, mul_comm (Real.log 10) 0.4343]

/-- Core algebraic fact behind the chained assert: if `L < H`, the two Magnus
inversions at `L` and `H` differ by `λ·β·(H-L)/((β-L)(β-H))`, and when that
quantity lies in `(0, 0.001)` the assert passes. -/
lemma assert_chain_of_bounds (L H : ℝ) (hLH : L < H)
    (hprod : 0 < (beta - L) * (beta - H))
    (hsize : lambda_ * beta * (H - L) < 0.001 * ((beta - L) * (beta - H))) :
    |lambda_ * L / (beta - L) - lambda_ * L / (beta - L)| <
        |lambda_ * H / (beta - H) - lambda_ * L / (beta - L)| ∧
      |lambda_ * H / (beta - H) - lambda_ * L / (beta - L)| < 0.001 := by
  have hL : beta - L ≠ 0 := by
    intro h0
    rw [h0, zero_mul] at hprod
    exact lt_irrefl _ hprod
  have hH : beta - H ≠ 0 := by
    intro h0
    rw [h0, mul_zero] at hprod
    exact lt_irrefl _ hprod
  have key : lambda_ * H / (beta - H) - lambda_ * L / (beta - L) =
      lambda_ * beta * (H - L) / ((beta - L) * (beta - H)) := by
    field_simp
    ring
  have hnum : 0 < lambda_ * beta * (H - L) :=
    mul_pos (mul_pos lambda_pos beta_pos) (by linarith)
  have hval : 0 < lambda_ * H / (beta - H) - lambda_ * L / (beta - L) := by
    rw [key]
    exact div_pos hnum hprod
  refine ⟨?_, ?_⟩
  · rw [sub_self, abs_zero]
    exact abs_pos.mpr (ne_of_gt hval)
  · rw [abs_of_pos hval, key, div_lt_iff hprod]
    linarith

/-- Arithmetic core: with `u = log(rh/100) < 0`, `c = 0.4343·log 10` and
`x = β·t/(λ+t) ≤ 3.488`, the pair `L = u + x`, `H = u/c + x` satisfies the
hypotheses of `assert_chain_of_bounds`. -/
lemma magnus_chain_arith (u c x : ℝ) (hu : u < 0)
    (hc1 : 1.0000127 < c) (hc2 : c < 1.00001271) (hx : x ≤ 3.488) :
    u + x < u / c + x ∧
      0 < (beta - (u + x)) * (beta - (u / c + x)) ∧
      lambda_ * beta * (u / c + x - (u + x)) <
        0.001 * ((beta - (u + x)) * (beta - (u / c + x))) := by
  have hc0 : (0 : ℝ) < c := by linarith
  have hs : 0 < -u := by linarith
  have hm : 14.132 ≤ beta - x := by simp only [beta]; linarith
  have hkey : u / c + x - (u + x) = -u * (c - 1) / c := by
    field_simp
    ring
  have hgap_pos : 0 < u / c + x - (u + x) := by
    rw [hkey]
    have : 0 < -u * (c - 1) := mul_pos hs (by linarith)
    positivity
  have hgap_le : u / c + x - (u + x) ≤ 0.00001271 * -u := by
    rw [hkey, div_le_iff hc0]
    nlinarith [sq_nonneg (c - 1)]
  have hsc : 0.9999872 * -u ≤ -u / c := by
    rw [le_div_iff hc0]
    nlinarith
  have hbl : beta - (u + x) = beta - x + -u := by ring
  have hbh : beta - (u / c + x) = beta - x + -u / c := by ring
  have f1 : beta - x + 0.9999872 * -u ≤ beta - x + -u := by linarith
  have f2 : beta - x + 0.9999872 * -u ≤ beta - x + -u / c := by linarith
  have fpos : 0 < beta - x + 0.9999872 * -u := by linarith
  have hprodge : (beta - x + 0.9999872 * -u) ^ 2 ≤
      (beta - x + -u) * (beta - x + -u / c) := by
    nlinarith
  have h4 : 4 * (beta - x) * (0.9999872 * -u) ≤ (beta - x + 0.9999872 * -u) ^ 2 := by
    nlinarith [sq_nonneg (beta - x - 0.9999872 * -u)]
  have hmge : 4 * 14.132 * (0.9999872 * -u) ≤ 4 * (beta - x) * (0.9999872 * -u) := by
    nlinarith
  have hLHS : lambda_ * beta * (u / c + x - (u + x)) ≤ 4283.7744 * (0.00001271 * -u) := by
    have hlb : lambda_ * beta = 4283.7744 := by norm_num [lambda_, beta]
    rw [hlb]
    nlinarith
  refine ⟨by linarith, ?_, ?_⟩
  · rw [hbl, hbh]
    have hfa : 0 < beta - x + -u := by linarith
    have hfb : 0 < beta - x + -u / c := by linarith
    exact mul_pos hfa hfb
  · rw [hbl, hbh]
    linarith

/-- For `t ∈ [-45, 60]` and `0 < rh < 100` the chained assert in
`dewpoint_all` passes and `dp1` is returned. -/
lemma dewpoint_all_ok_general (t rh : ℝ) (ht1 : -45 ≤ t) (ht2 : t ≤ 60)
    (hrh1 : 0 < rh) (hrh2 : rh < 100) :
    dewpoint_all t rh = .ok (dewpoint_1_val t rh) ∧
      |dewpoint_2_val t rh - dewpoint_1_val t rh| <
        |dewpoint_3_val t rh - dewpoint_1_val t rh| ∧
      |dewpoint_3_val t rh - dewpoint_1_val t rh| < 0.001 := by
  have hlt : (0 : ℝ) < lambda_ + t := by simp only [lambda_]; linarith
  have hu : Real.log (rh / 100) < 0 :=
    Real.log_neg (by positivity) (by rw [div_lt_one (by norm_num)]; linarith)
  obtain ⟨hl10a, hl10b⟩ := log_ten_bounds
  have hc1 : (1.0000127 : ℝ) < 0.4343 * Real.log 10 := by linarith
  have hc2 : (0.4343 : ℝ) * Real.log 10 < 1.00001271 := by linarith
  have hx : beta * t / (lambda_ + t) ≤ 3.488 := by
    rw [div_le_iff hlt]
    simp only [beta, lambda_]
    nlinarith
  obtain ⟨hLH, hprod, hsize⟩ :=
    magnus_chain_arith (Real.log (rh / 100)) (0.4343 * Real.log 10)
      (beta * t / (lambda_ + t)) hu hc1 hc2 hx
  have hLdef : dp_zeroeth_part t rh =
      Real.log (rh / 100) + beta * t / (lambda_ + t) := rfl
  have hHdef : dewpoint_3_H t rh =
      Real.log (rh / 100) / (0.4343 * Real.log 10) + beta * t / (lambda_ + t) :=
    dewpoint_3_H_eq t rh hrh1
  have hchain := assert_chain_of_bounds (dp_zeroeth_part t rh) (dewpoint_3_H t rh)
    (by rw [hLdef, hHdef]; exact hLH)
    (by rw [hLdef, hHdef]; exact hprod)
    (by rw [hLdef, hHdef]; exact hsize)
  have h1v : dewpoint_1_val t rh =
      lambda_ * dp_zeroeth_part t rh / (beta - dp_zeroeth_part t rh) := by
    rw [dewpoint_1_val, log_vp_over_alpha t rh hrh1]
  have h2v : dewpoint_2_val t rh =
      lambda_ * dp_zeroeth_part t rh / (beta - dp_zeroeth_part t rh) := rfl
  have h3v : dewpoint_3_val t rh =
      lambda_ * dewpoint_3_H t rh / (beta - dewpoint_3_H t rh) := rfl
  have hcond : |dewpoint_2_val t rh - dewpoint_1_val t rh| <
      |dewpoint_3_val t rh - dewpoint_1_val t rh| ∧
      |dewpoint_3_val t rh - dewpoint_1_val t rh| < 0.001 := by
    rw [h1v, h2v, h3v]
    exact hchain
  exact ⟨by rw [dewpoint_all_unfold t rh hrh1, if_pos hcond], hcond⟩

end dewpoint

namespace dewpoint

lemma alpha_ne : (alpha : ℝ) ≠ 0 := by norm_num [alpha]

/-- Inverting the Magnus inversion: if `d = λ·L/(β-L)` then `β·d/(λ+d) = L`. -/
lemma magnus_forward_of_inversion (L : ℝ) (hden : beta - L ≠ 0) :
    beta * (lambda_ * L / (beta - L)) / (lambda_ + lambda_ * L / (beta - L)) = L := by
  have hl : lambda_ ≠ 0 := ne_of_gt lambda_pos
  have hb : beta ≠ 0 := ne_of_gt beta_pos
  have hsum : lambda_ + lambda_ * L / (beta - L) = lambda_ * beta / (beta - L) := by
    field_simp
    ring
  rw [hsum]
  field_simp
  ring

/-- The Magnus inversion applied to `β·t/(λ+t)` returns `t`. -/
lemma magnus_inversion_self (t : ℝ) (hlt : lambda_ + t ≠ 0) :
    lambda_ * (beta * t / (lambda_ + t)) / (beta - beta * t / (lambda_ + t)) = t := by
  have hl : lambda_ ≠ 0 := ne_of_gt lambda_pos
  have hb : beta ≠ 0 := ne_of_gt beta_pos
  have hbx : beta - beta * t / (lambda_ + t) = beta * lambda_ / (lambda_ + t) := by
    field_simp
    ring
  rw [hbx]
  field_simp
  ring

/-- In exact arithmetic, the round trips through `dewpoint_1_val` are exact:
`relative_humidity(t, dp1) = rh/100` and `temperature(dp1, rh) = t`. -/
lemma dewpoint_roundtrip_exact (t rh : ℝ) (hlt : lambda_ + t ≠ 0) (hrh : 0 < rh)
    (hden : beta - dp_zeroeth_part t rh ≠ 0) :
    relative_humidity t (dewpoint_1_val t rh) = rh / 100 ∧
      temperature (dewpoint_1_val t rh) rh = .ok t := by
  have hd : dewpoint_1_val t rh =
      lambda_ * dp_zeroeth_part t rh / (beta - dp_zeroeth_part t rh) := by
    rw [dewpoint_1_val, log_vp_over_alpha t rh hrh]
  have hfwd : beta * dewpoint_1_val t rh / (lambda_ + dewpoint_1_val t rh) =
      dp_zeroeth_part t rh := by
    rw [hd]
    exact magnus_forward_of_inversion _ hden
  have hLd : dp_zeroeth_part t rh =
      Real.log (rh / 100) + beta * t / (lambda_ + t) := rfl
  have hsvpd : saturation_vapour_pressure (dewpoint_1_val t rh) =
      alpha * (rh / 100 * Real.exp (beta * t / (lambda_ + t))) := by
    rw [saturation_vapour_pressure_eq, hfwd, hLd, Real.exp_add,
      Real.exp_log (by positivity)]
  have hsvpt : saturation_vapour_pressure t =
      alpha * Real.exp (beta * t / (lambda_ + t)) := saturation_vapour_pressure_eq t
  have hrh100 : (rh / 100 : ℝ) ≠ 0 := by positivity
  constructor
  · rw [relative_humidity, hsvpd, hsvpt]
    field_simp [alpha_ne, Real.exp_ne_zero]
    ring
  · have hpst : temperature_pst (dewpoint_1_val t rh) rh / alpha =
        Real.exp (beta * t / (lambda_ + t)) := by
      rw [temperature_pst, hsvpd]
      field_simp [alpha_ne, ne_of_gt hrh]
      ring
    rw [temperature, if_neg (by rw [hpst]; exact not_le.mpr (Real.exp_pos _))]
    have hval : temperature_val (dewpoint_1_val t rh) rh = t := by
      rw [temperature_val, hpst, Real.log_exp]
      exact magnus_inversion_self t hlt
    rw [hval]

/-- For `t ∈ [-45, 60]`, `0 < rh < 100`, the denominator `β - L` is positive. -/
lemma beta_sub_L_pos (t rh : ℝ) (ht1 : -45 ≤ t) (ht2 : t ≤ 60)
    (hrh1 : 0 < rh) (hrh2 : rh < 100) : 0 < beta - dp_zeroeth_part t rh := by
  have hlt : (0 : ℝ) < lambda_ + t := by simp only [lambda_]; linarith
  have hu : Real.log (rh / 100) < 0 :=
    Real.log_neg (by positivity) (by rw [div_lt_one (by norm_num)]; linarith)
  have hx : beta * t / (lambda_ + t) ≤ 3.488 := by
    rw [div_le_iff hlt]
    simp only [beta, lambda_]
    nlinarith
  have hLd : dp_zeroeth_part t rh =
      Real.log (rh / 100) + beta * t / (lambda_ + t) := rfl
  have hb : (3.488 : ℝ) < beta := by norm_num [beta]
  rw [hLd]
  linarith

end dewpoint

/-- C3 counterexample: at `T = 25`, `RH = 100` (inside the claimed domain
`0 < RH ≤ 100`) all three derivations agree exactly, so the strict chained
check `|dp2-dp1| < |dp3-dp1|` is `0 < 0`, the assert fires and `dewpoint_all`
raises `AssertionError` instead of returning `dp1`. -/
theorem c3_counterexample :
    dewpoint.dewpoint_all 25 100 = .error .assertionError :=
  dewpoint.dewpoint_all_rh100 25

/-- C3 (amended): for every `T ∈ [-45, 60]` and `0 < RH < 100` (the endpoint
`RH = 100` excluded), the chained check `|dp2-dp1| < |dp3-dp1| < 0.001` holds,
the assertion in `dewpoint_all` does not fire, and `dewpoint_all` returns
`dp1`, the vapour-pressure-inversion value. -/
theorem c3_consistency_check_passes (t rh : ℝ) (ht1 : -45 ≤ t) (ht2 : t ≤ 60)
    (hrh1 : 0 < rh) (hrh2 : rh < 100) :
    dewpoint.dewpoint_all t rh = .ok (dewpoint.dewpoint_1_val t rh) ∧
      |dewpoint.dewpoint_2_val t rh - dewpoint.dewpoint_1_val t rh| <
        |dewpoint.dewpoint_3_val t rh - dewpoint.dewpoint_1_val t rh| ∧
      |dewpoint.dewpoint_3_val t rh - dewpoint.dewpoint_1_val t rh| < 0.001 :=
  dewpoint.dewpoint_all_ok_general t rh ht1 ht2 hrh1 hrh2

/-- Witness for C3 at `T = 25`, `RH = 50`. -/
theorem c3_consistency_check_passes_witness :
    ((-45 : ℝ) ≤ 25 ∧ (25 : ℝ) ≤ 60 ∧ (0 : ℝ) < 50 ∧ (50 : ℝ) < 100) ∧
      (dewpoint.dewpoint_all 25 50 = .ok (dewpoint.dewpoint_1_val 25 50) ∧
        |dewpoint.dewpoint_2_val 25 50 - dewpoint.dewpoint_1_val 25 50| <
          |dewpoint.dewpoint_3_val 25 50 - dewpoint.dewpoint_1_val 25 50| ∧
        |dewpoint.dewpoint_3_val 25 50 - dewpoint.dewpoint_1_val 25 50| < 0.001) :=
  ⟨by norm_num,
    c3_consistency_check_passes 25 50 (by norm_num) (by norm_num) (by norm_num)
      (by norm_num)⟩

namespace dewpoint

/-- As `rh → 100`, the canonical dewpoint tends to the dry-bulb temperature. -/
lemma dewpoint_1_val_tendsto (t : ℝ) (ht1 : -45 ≤ t) (ht2 : t ≤ 60) :
    Filter.Tendsto (fun rh => dewpoint_1_val t rh) (nhds 100) (nhds t) := by
  have hlt : (0 : ℝ) < lambda_ + t := by simp only [lambda_]; linarith
  have hx : beta * t / (lambda_ + t) ≤ 3.488 := by
    rw [div_le_iff hlt]
    simp only [beta, lambda_]
    nlinarith
  have hb : (3.488 : ℝ) < beta := by norm_num [beta]
  have hbx : beta - beta * t / (lambda_ + t) ≠ 0 := by
    intro h0
    linarith
  have hfun : (fun rh => dewpoint_1_val t rh) =
      fun rh => lambda_ * Real.log (rh / 100 * Real.exp (beta * t / (lambda_ + t))) /
        (beta - Real.log (rh / 100 * Real.exp (beta * t / (lambda_ + t)))) := by
    funext rh
    rw [dewpoint_1_val, vp_over_alpha_eq]
  rw [hfun]
  have hcont : Continuous fun rh : ℝ =>
      rh / 100 * Real.exp (beta * t / (lambda_ + t)) := by
    continuity
  have harg : Filter.Tendsto
      (fun rh : ℝ => rh / 100 * Real.exp (beta * t / (lambda_ + t))) (nhds 100)
      (nhds (Real.exp (beta * t / (lambda_ + t)))) := by
    have h100 : (100 : ℝ) / 100 * Real.exp (beta * t / (lambda_ + t)) =
        Real.exp (beta * t / (lambda_ + t)) := by norm_num
    simpa [h100] using hcont.tendsto 100
  have hlog : Filter.Tendsto
      (fun rh : ℝ => Real.log (rh / 100 * Real.exp (beta * t / (lambda_ + t))))
      (nhds 100) (nhds (beta * t / (lambda_ + t))) := by
    have hlogc : ContinuousAt Real.log (Real.exp (beta * t / (lambda_ + t))) :=
      Real.continuousAt_log (ne_of_gt (Real.exp_pos _))
    have := hlogc.tendsto.comp harg
    simpa [Function.comp, Real.log_exp] using this
  have hnum := hlog.const_mul lambda_
  have hden := Filter.Tendsto.sub (tendsto_const_nhds (x := beta)) hlog
  have hdiv := Filter.Tendsto.div hnum hden hbx
  have hself : lambda_ * (beta * t / (lambda_ + t)) /
      (beta - beta * t / (lambda_ + t)) = t :=
    magnus_inversion_self t (ne_of_gt hlt)
  rw [hself] at hdiv
  exact hdiv

end dewpoint

/-- C5 counterexample: at `T = 20`, `RH = 100` (inside the claimed domain)
`dewpoint_all` raises `AssertionError`, so there is no returned dewpoint to
round-trip. -/
theorem c5_counterexample :
    ¬ ∃ d, dewpoint.dewpoint_all 20 100 = .ok d ∧
        |dewpoint.relative_humidity 20 d * 100 - 100| ≤ 0.2 ∧
        ∃ tv, dewpoint.temperature d 100 = .ok tv ∧ |tv - 20| ≤ 0.2 := by
  rintro ⟨d, hd, -⟩
  rw [dewpoint.dewpoint_all_rh100] at hd
  exact Except.noConfusion hd

/-- C5 (amended): for every `T ∈ [-45, 60]` and `0 < RH < 100` (the endpoint
`RH = 100` excluded, where `dewpoint_all` raises), the round trips are exact
in real arithmetic, hence within the claimed `0.2` tolerances:
`relative_humidity(T, dewpoint_all(T,RH)) · 100 = RH` and
`temperature(dewpoint_all(T,RH), RH) = T`. -/
theorem c5_roundtrip (t rh : ℝ) (ht1 : -45 ≤ t) (ht2 : t ≤ 60)
    (hrh1 : 0 < rh) (hrh2 : rh < 100) :
    ∃ d, dewpoint.dewpoint_all t rh = .ok d ∧
      |dewpoint.relative_humidity t d * 100 - rh| ≤ 0.2 ∧
      ∃ tv, dewpoint.temperature d rh = .ok tv ∧ |tv - t| ≤ 0.2 := by
  obtain ⟨hall, -, -⟩ := dewpoint.dewpoint_all_ok_general t rh ht1 ht2 hrh1 hrh2
  have hlt : (0 : ℝ) < dewpoint.lambda_ + t := by
    simp only [dewpoint.lambda_]
    linarith
  have hden : dewpoint.beta - dewpoint.dp_zeroeth_part t rh ≠ 0 :=
    ne_of_gt (dewpoint.beta_sub_L_pos t rh ht1 ht2 hrh1 hrh2)
  obtain ⟨hrt1, hrt2⟩ :=
    dewpoint.dewpoint_roundtrip_exact t rh (ne_of_gt hlt) hrh1 hden
  refine ⟨dewpoint.dewpoint_1_val t rh, hall, ?_, t, hrt2, by norm_num⟩
  rw [hrt1]
  have : rh / 100 * 100 - rh = 0 := by ring
  rw [this, abs_zero]
  norm_num

/-- Witness for C5 at `T = 10`, `RH = 30`. -/
theorem c5_roundtrip_witness :
    ((-45 : ℝ) ≤ 10 ∧ (10 : ℝ) ≤ 60 ∧ (0 : ℝ) < 30 ∧ (30 : ℝ) < 100) ∧
      (∃ d, dewpoint.dewpoint_all 10 30 = .ok d ∧
        |dewpoint.relative_humidity 10 d * 100 - 30| ≤ 0.2 ∧
        ∃ tv, dewpoint.temperature d 30 = .ok tv ∧ |tv - 10| ≤ 0.2) :=
  ⟨by norm_num,
    c5_roundtrip 10 30 (by norm_num) (by norm_num) (by norm_num) (by norm_num)⟩

/-- C6 counterexample: at `T = 30`, `RH = 100` (inside the claimed domain
`0 < RH ≤ 100`) `dewpoint_all` raises `AssertionError`, so it does not return
a value `≤ T`. -/
theorem c6_counterexample :
    ¬ ∃ d, dewpoint.dewpoint_all 30 100 = .ok d ∧ d ≤ 30 := by
  rintro ⟨d, hd, -⟩
  rw [dewpoint.dewpoint_all_rh100] at hd
  exact Except.noConfusion hd

/-- C6 (amended): for every `T ∈ [-45, 60]` and `0 < RH < 100`,
`dewpoint_all(T, RH)` returns a value that is strictly below `T`, and the
returned value tends to `T` as `RH → 100` (equality is only approached). -/
theorem c6_dewpoint_below_temperature (t rh : ℝ) (ht1 : -45 ≤ t) (ht2 : t ≤ 60)
    (hrh1 : 0 < rh) (hrh2 : rh < 100) :
    (∃ d, dewpoint.dewpoint_all t rh = .ok d ∧ d < t) ∧
      Filter.Tendsto (fun s => dewpoint.dewpoint_1_val t s) (nhds 100) (nhds t) := by
  obtain ⟨hall, -, -⟩ := dewpoint.dewpoint_all_ok_general t rh ht1 ht2 hrh1 hrh2
  have hlt : (0 : ℝ) < dewpoint.lambda_ + t := by
    simp only [dewpoint.lambda_]
    linarith
  have hu : Real.log (rh / 100) < 0 :=
    Real.log_neg (by positivity) (by rw [div_lt_one (by norm_num)]; linarith)
  have hx : dewpoint.beta * t / (dewpoint.lambda_ + t) ≤ 3.488 := by
    rw [div_le_iff hlt]
    simp only [dewpoint.beta, dewpoint.lambda_]
    nlinarith
  have hb : (3.488 : ℝ) < dewpoint.beta := by norm_num [dewpoint.beta]
  have hLlt : dewpoint.dp_zeroeth_part t rh < dewpoint.beta * t / (dewpoint.lambda_ + t) := by
    have hLd : dewpoint.dp_zeroeth_part t rh =
        Real.log (rh / 100) + dewpoint.beta * t / (dewpoint.lambda_ + t) := rfl
    rw [hLd]
    linarith
  have hbL : 0 < dewpoint.beta - dewpoint.dp_zeroeth_part t rh :=
    dewpoint.beta_sub_L_pos t rh ht1 ht2 hrh1 hrh2
  have hbx : 0 < dewpoint.beta - dewpoint.beta * t / (dewpoint.lambda_ + t) := by
    linarith
  have hdlt : dewpoint.dewpoint_1_val t rh < t := by
    have hd : dewpoint.dewpoint_1_val t rh =
        dewpoint.lambda_ * dewpoint.dp_zeroeth_part t rh /
          (dewpoint.beta - dewpoint.dp_zeroeth_part t rh) := by
      rw [dewpoint.dewpoint_1_val, dewpoint.log_vp_over_alpha t rh hrh1]
    have hself : dewpoint.lambda_ * (dewpoint.beta * t / (dewpoint.lambda_ + t)) /
        (dewpoint.beta - dewpoint.beta * t / (dewpoint.lambda_ + t)) = t :=
      dewpoint.magnus_inversion_self t (ne_of_gt hlt)
    have hgoal : dewpoint.lambda_ * dewpoint.dp_zeroeth_part t rh /
        (dewpoint.beta - dewpoint.dp_zeroeth_part t rh) <
        dewpoint.lambda_ * (dewpoint.beta * t / (dewpoint.lambda_ + t)) /
          (dewpoint.beta - dewpoint.beta * t / (dewpoint.lambda_ + t)) := by
      rw [div_lt_div_iff hbL hbx]
      have hlp := dewpoint.lambda_pos
      have hbp := dewpoint.beta_pos
      nlinarith [mul_lt_mul_of_pos_left hLlt (mul_pos hlp hbp)]
    rw [hd]
    exact lt_of_lt_of_eq hgoal hself
  exact ⟨⟨dewpoint.dewpoint_1_val t rh, hall, hdlt⟩,
    dewpoint.dewpoint_1_val_tendsto t ht1 ht2⟩

/-- Witness for C6 at `T = 0`, `RH = 60`. -/
theorem c6_dewpoint_below_temperature_witness :
    ((-45 : ℝ) ≤ 0 ∧ (0 : ℝ) ≤ 60 ∧ (0 : ℝ) < 60 ∧ (60 : ℝ) < 100) ∧
      ((∃ d, dewpoint.dewpoint_all 0 60 = .ok d ∧ d < 0) ∧
        Filter.Tendsto (fun s => dewpoint.dewpoint_1_val 0 s) (nhds 100) (nhds 0)) :=
  ⟨by norm_num,
    c6_dewpoint_below_temperature 0 60 (by norm_num) (by norm_num) (by norm_num)
      (by norm_num)⟩

namespace dewpoint

/-- Mirror of `assert_chain_of_bounds` for the failing direction: when the
scaled gap exceeds the tolerance, `|dp3 - dp1| > 0.001`. -/
lemma chain_exceeds_of_bounds (L H : ℝ) (hLH : L < H)
    (hprod : 0 < (beta - L) * (beta - H))
    (hsize : 0.001 * ((beta - L) * (beta - H)) < lambda_ * beta * (H - L)) :
    0.001 < |lambda_ * H / (beta - H) - lambda_ * L / (beta - L)| := by
  have hL : beta - L ≠ 0 := by
    intro h0
    rw [h0, zero_mul] at hprod
    exact lt_irrefl _ hprod
  have hH : beta - H ≠ 0 := by
    intro h0
    rw [h0, mul_zero] at hprod
    exact lt_irrefl _ hprod
  have key : lambda_ * H / (beta - H) - lambda_ * L / (beta - L) =
      lambda_ * beta * (H - L) / ((beta - L) * (beta - H)) := by
    field_simp
    ring
  have hnum : 0 < lambda_ * beta * (H - L) :=
    mul_pos (mul_pos lambda_pos beta_pos) (by linarith)
  have hval : 0 < lambda_ * H / (beta - H) - lambda_ * L / (beta - L) := by
    rw [key]
    exact div_pos hnum hprod
  rw [abs_of_pos hval, key, lt_div_iff hprod]
  linarith

/-- The third derivation coincides with the second at `rh = 100`. -/
lemma dewpoint_3_val_rh100 (t : ℝ) : dewpoint_3_val t 100 = dewpoint_2_val t 100 := by
  rw [dewpoint_3_val, dewpoint_2_val, dewpoint_3_H, dp_zeroeth_part, logb_ten_hundred]
  norm_num

end dewpoint

/-- C8 counterexample: at `T = 25`, `RH = 0` the first derivation
(`dewpoint_1`) is evaluated and itself raises a `ValueError` from
`math.log` on a non-positive argument; no `InvalidInputError` is raised
before the derivations (the code defines no such exception). -/
theorem c8_counterexample :
    dewpoint.dewpoint_1 25 0 = .error .valueError ∧
      dewpoint.dewpoint_all 25 0 = .error .valueError := by
  have hvpa : dewpoint.vp_over_alpha 25 0 ≤ 0 := by
    rw [dewpoint.vp_over_alpha_eq]
    norm_num
  have h1 : dewpoint.dewpoint_1 25 0 = .error .valueError := by
    rw [dewpoint.dewpoint_1, if_pos hvpa]
  refine ⟨h1, ?_⟩
  rw [dewpoint.dewpoint_all, h1]
  rfl

/-- C8 (amended): for every `RH ≤ 0` and every `T` with `λ + T ≠ 0` (so that
Python does not hit a `ZeroDivisionError` first), the dewpoint computation
fails with the `ValueError` raised by `math.log` inside the first derivation
`dewpoint_1` — before the consistency comparison — and no NaN or complex
value propagates; the error is not an `InvalidInputError` raised before the
derivations. -/
theorem c8_invalid_input_error (t rh : ℝ) (hlt : dewpoint.lambda_ + t ≠ 0)
    (hrh : rh ≤ 0) :
    dewpoint.dewpoint_all t rh = .error .valueError ∧
      dewpoint.dewpoint_1 t rh = .error .valueError := by
  have hexp : 0 < Real.exp (dewpoint.beta * t / (dewpoint.lambda_ + t)) :=
    Real.exp_pos _
  have hvpa : dewpoint.vp_over_alpha t rh ≤ 0 := by
    rw [dewpoint.vp_over_alpha_eq]
    nlinarith
  have h1 : dewpoint.dewpoint_1 t rh = .error .valueError := by
    rw [dewpoint.dewpoint_1, if_pos hvpa]
  refine ⟨?_, h1⟩
  rw [dewpoint.dewpoint_all, h1]
  rfl

/-- Witness for C8 at `T = 25`, `RH = -5`. -/
theorem c8_invalid_input_error_witness :
    (dewpoint.lambda_ + 25 ≠ 0 ∧ (-5 : ℝ) ≤ 0) ∧
      (dewpoint.dewpoint_all 25 (-5) = .error .valueError ∧
        dewpoint.dewpoint_1 25 (-5) = .error .valueError) :=
  ⟨⟨by norm_num [dewpoint.lambda_], by norm_num⟩,
    c8_invalid_input_error 25 (-5) (by norm_num [dewpoint.lambda_]) (by norm_num)⟩

/-- C9 counterexample: at `T = 10000`, `RH = 99` the three derivations really
do disagree by more than the `0.001` tolerance, and `dewpoint_all` fails with
the bare assert (`AssertionError`), not with a dedicated `ConsistencyError`
(no such exception exists in the code). -/
theorem c9_counterexample :
    0.001 < |dewpoint.dewpoint_3_val 10000 99 - dewpoint.dewpoint_1_val 10000 99| ∧
      dewpoint.dewpoint_all 10000 99 = .error .assertionError := by
  obtain ⟨hl10a, hl10b⟩ := log_ten_bounds
  have hc1 : (1.0000127 : ℝ) < 0.4343 * Real.log 10 := by linarith
  have hc2 : (0.4343 : ℝ) * Real.log 10 < 1.00001271 := by linarith
  have hc0 : (0 : ℝ) < 0.4343 * Real.log 10 := by linarith
  have hu1 : Real.log ((99 : ℝ) / 100) ≤ -0.01 := by
    have h := log_one_sub_le (x := 0.01) (by norm_num) (by norm_num)
    rw [show (1 : ℝ) - 0.01 = 99 / 100 by norm_num] at h
    linarith
  have hu2 : -(1 / 99 : ℝ) ≤ Real.log ((99 : ℝ) / 100) := by
    have h := log_one_sub_ge (x := 0.01) (by norm_num) (by norm_num)
    rw [show (1 : ℝ) - 0.01 = 99 / 100 by norm_num] at h
    have heq : (-0.01 : ℝ) / (99 / 100) = -(1 / 99) := by norm_num
    rw [show (-(0.01) : ℝ) = -0.01 by norm_num] at h
    nlinarith [h]
  have hlt : (0 : ℝ) < dewpoint.lambda_ + 10000 := by norm_num [dewpoint.lambda_]
  have hx1 : (17.2017 : ℝ) ≤ dewpoint.beta * 10000 / (dewpoint.lambda_ + 10000) := by
    rw [le_div_iff hlt]
    norm_num [dewpoint.beta, dewpoint.lambda_]
  have hx2 : dewpoint.beta * 10000 / (dewpoint.lambda_ + 10000) ≤ 17.2018 := by
    rw [div_le_iff hlt]
    norm_num [dewpoint.beta, dewpoint.lambda_]
  have hbeta : dewpoint.beta = 17.62 := rfl
  have hLdef : dewpoint.dp_zeroeth_part 10000 99 =
      Real.log ((99 : ℝ) / 100) + dewpoint.beta * 10000 / (dewpoint.lambda_ + 10000) :=
    rfl
  have hHdef := dewpoint.dewpoint_3_H_eq 10000 99 (by norm_num)
  -- abbreviations for readability of the arithmetic below
  have hgap_eq : Real.log ((99 : ℝ) / 100) / (0.4343 * Real.log 10) -
      Real.log ((99 : ℝ) / 100) =
      -Real.log ((99 : ℝ) / 100) * (0.4343 * Real.log 10 - 1) /
        (0.4343 * Real.log 10) := by
    field_simp
    ring
  have hgap_ge : (1.2e-7 : ℝ) ≤
      Real.log ((99 : ℝ) / 100) / (0.4343 * Real.log 10) -
        Real.log ((99 : ℝ) / 100) := by
    rw [hgap_eq, le_div_iff hc0]
    nlinarith
  have hgap_pos : (0 : ℝ) <
      Real.log ((99 : ℝ) / 100) / (0.4343 * Real.log 10) -
        Real.log ((99 : ℝ) / 100) := by linarith
  have hdivneg : Real.log ((99 : ℝ) / 100) / (0.4343 * Real.log 10) < 0 :=
    div_neg_of_neg_of_pos (by linarith) hc0
  have hLH : dewpoint.dp_zeroeth_part 10000 99 < dewpoint.dewpoint_3_H 10000 99 := by
    rw [hLdef, hHdef]
    linarith
  have hbL_pos : 0 < dewpoint.beta - dewpoint.dp_zeroeth_part 10000 99 := by
    rw [hLdef]
    linarith
  have hbL_hi : dewpoint.beta - dewpoint.dp_zeroeth_part 10000 99 ≤ 0.4285 := by
    rw [hLdef]
    linarith
  have hbH_pos : 0 < dewpoint.beta - dewpoint.dewpoint_3_H 10000 99 := by
    rw [hHdef]
    linarith
  have hbH_hi : dewpoint.beta - dewpoint.dewpoint_3_H 10000 99 ≤ 0.4285 := by
    rw [hHdef]
    linarith
  have hprod : 0 < (dewpoint.beta - dewpoint.dp_zeroeth_part 10000 99) *
      (dewpoint.beta - dewpoint.dewpoint_3_H 10000 99) :=
    mul_pos hbL_pos hbH_pos
  have hprod_hi : (dewpoint.beta - dewpoint.dp_zeroeth_part 10000 99) *
      (dewpoint.beta - dewpoint.dewpoint_3_H 10000 99) ≤ 0.4285 * 0.4285 :=
    mul_le_mul hbL_hi hbH_hi (le_of_lt hbH_pos) (by norm_num)
  have hlb : dewpoint.lambda_ * dewpoint.beta = 4283.7744 := by
    norm_num [dewpoint.lambda_, dewpoint.beta]
  have hgapLH : (1.2e-7 : ℝ) ≤
      dewpoint.dewpoint_3_H 10000 99 - dewpoint.dp_zeroeth_part 10000 99 := by
    rw [hLdef, hHdef]
    linarith
  have hsize : 0.001 * ((dewpoint.beta - dewpoint.dp_zeroeth_part 10000 99) *
      (dewpoint.beta - dewpoint.dewpoint_3_H 10000 99)) <
      dewpoint.lambda_ * dewpoint.beta *
        (dewpoint.dewpoint_3_H 10000 99 - dewpoint.dp_zeroeth_part 10000 99) := by
    rw [hlb]
    nlinarith
  have hexceeds := dewpoint.chain_exceeds_of_bounds
    (dewpoint.dp_zeroeth_part 10000 99) (dewpoint.dewpoint_3_H 10000 99)
    hLH hprod hsize
  have h1v : dewpoint.dewpoint_1_val 10000 99 =
      dewpoint.lambda_ * dewpoint.dp_zeroeth_part 10000 99 /
        (dewpoint.beta - dewpoint.dp_zeroeth_part 10000 99) := by
    rw [dewpoint.dewpoint_1_val, dewpoint.log_vp_over_alpha 10000 99 (by norm_num)]
  have h3v : dewpoint.dewpoint_3_val 10000 99 =
      dewpoint.lambda_ * dewpoint.dewpoint_3_H 10000 99 /
        (dewpoint.beta - dewpoint.dewpoint_3_H 10000 99) := rfl
  have hmain : 0.001 <
      |dewpoint.dewpoint_3_val 10000 99 - dewpoint.dewpoint_1_val 10000 99| := by
    rw [h1v, h3v]
    exact hexceeds
  refine ⟨hmain, ?_⟩
  rw [dewpoint.dewpoint_all_unfold 10000 99 (by norm_num)]
  rw [if_neg]
  rintro ⟨-, habs⟩
  linarith

/-- C9 (amended): whenever the chained check
`|dp2-dp1| < |dp3-dp1| < 0.001` fails (for any `rh > 0`, so that the three
derivations are computed at all), `dewpoint_all` fails with the bare assert's
`AssertionError`, which propagates to the caller and is never swallowed;
there is no dedicated `ConsistencyError` in the code. -/
theorem c9_assertion_error_surfaced (t rh : ℝ) (hrh : 0 < rh)
    (hfail : ¬(|dewpoint.dewpoint_2_val t rh - dewpoint.dewpoint_1_val t rh| <
          |dewpoint.dewpoint_3_val t rh - dewpoint.dewpoint_1_val t rh| ∧
        |dewpoint.dewpoint_3_val t rh - dewpoint.dewpoint_1_val t rh| < 0.001)) :
    dewpoint.dewpoint_all t rh = .error .assertionError := by
  rw [dewpoint.dewpoint_all_unfold t rh hrh, if_neg hfail]

/-- Witness for C9 at `T = 25`, `RH = 100`, where the chained check fails. -/
theorem c9_assertion_error_surfaced_witness :
    ((0 : ℝ) < 100 ∧
        ¬(|dewpoint.dewpoint_2_val 25 100 - dewpoint.dewpoint_1_val 25 100| <
              |dewpoint.dewpoint_3_val 25 100 - dewpoint.dewpoint_1_val 25 100| ∧
            |dewpoint.dewpoint_3_val 25 100 - dewpoint.dewpoint_1_val 25 100| < 0.001)) ∧
      dewpoint.dewpoint_all 25 100 = .error .assertionError := by
  have h2 : dewpoint.dewpoint_2_val 25 100 = dewpoint.dewpoint_1_val 25 100 :=
    (dewpoint.dewpoint_1_val_eq_dewpoint_2_val 25 100 (by norm_num)).symm
  have h3 : dewpoint.dewpoint_3_val 25 100 = dewpoint.dewpoint_1_val 25 100 := by
    rw [dewpoint.dewpoint_3_val_rh100, h2]
  have hfail : ¬(|dewpoint.dewpoint_2_val 25 100 - dewpoint.dewpoint_1_val 25 100| <
        |dewpoint.dewpoint_3_val 25 100 - dewpoint.dewpoint_1_val 25 100| ∧
      |dewpoint.dewpoint_3_val 25 100 - dewpoint.dewpoint_1_val 25 100| < 0.001) := by
    rw [h2, h3]
    simp
  exact ⟨⟨by norm_num, hfail⟩, c9_assertion_error_surfaced 25 100 (by norm_num) hfail⟩

/-- `exp g ≤ (1-g)⁻¹` for `g < 1`. -/
lemma exp_le_inv_one_sub {g : ℝ} (h : g < 1) : Real.exp g ≤ (1 - g)⁻¹ := by
  have hpos : (0 : ℝ) < 1 - g := by linarith
  have h1 : 1 - g ≤ Real.exp (-g) := by
    have := Real.add_one_le_exp (-g)
    linarith
  rw [Real.exp_neg] at h1
  have h2 := inv_le_inv_of_le hpos h1
  rwa [inv_inv] at h2

namespace wetbulb

/-- At saturation (`temp_dewpoint = temp_drybulb`) the vapour-pressure ratio
`U` is `1`. -/
lemma U_self (td : ℝ) : U td td = 1 := by
  rw [U, add_comm svp4 (kelvin2celsius td)]
  exact div_self (Real.exp_ne_zero _)

/-- At saturation the LCL temperature equals the dry-bulb temperature. -/
lemma TL_self (td : ℝ) (h0 : td ≠ 0) : temp_lifted_condensation_level td td = td := by
  rw [temp_lifted_condensation_level, div_self h0, Real.log_one, zero_div,
    add_zero]
  norm_num [one_div_one_div]

lemma e_self (td : ℝ) : e td td = es td := by
  rw [e, U_self, one_mul]

lemma es_cold (td : ℝ) (h : td ≤ 230.5) :
    es td = svp1 * Real.exp (22.514 - 6.15e3 / td) := by
  rw [es, if_neg]
  rw [not_lt, TEMP_ZEROCELSIUS]
  linarith

lemma es_cold_bound (td : ℝ) (h1 : 100 ≤ td) (h2 : td ≤ 230.5) :
    0 < es td ∧ es td ≤ 1.2224 := by
  rw [es_cold td h2]
  have htd0 : (0 : ℝ) < td := by linarith
  constructor
  · have : (0 : ℝ) < svp1 := by norm_num [svp1]
    exact mul_pos this (Real.exp_pos _)
  · have hdiv : (26.514 : ℝ) ≤ 6.15e3 / td := by
      rw [le_div_iff htd0]
      linarith
    have hexp : Real.exp (22.514 - 6.15e3 / td) ≤ Real.exp (-4) :=
      Real.exp_le_exp.mpr (by linarith)
    have h5 : (5 : ℝ) ≤ Real.exp 4 := by
      have := Real.add_one_le_exp (4 : ℝ)
      linarith
    have hinv : Real.exp (-4 : ℝ) ≤ 1 / 5 := by
      rw [Real.exp_neg]
      rw [show (1 : ℝ) / 5 = 5⁻¹ by norm_num]
      exact inv_le_inv_of_le (by norm_num) h5
    have hsvp1 : svp1 = 6.112 := rfl
    nlinarith [Real.exp_pos (22.514 - 6.15e3 / td)]

end wetbulb

namespace wetbulb

set_option maxHeartbeats 1000000 in
/-- For a saturated parcel (`temp_dewpoint = temp_drybulb = td`) with
`td ∈ [100, 230.5]` K at `ps = 101300` Pa, the regime threshold satisfies
`cote > D(π)`, so `wetbulb_temperature_celsius` takes the first branch and
raises `TypeError` (the `^ 2` bitwise-xor slip). -/
lemma branch1_saturated_cold (td : ℝ) (h1 : 100 ≤ td) (h2 : td ≤ 230.5) :
    D_pi 101300 < cote td td 101300 ∧
      wetbulb_temperature_celsius td td 101300 = .error .typeError := by
  have htd0 : (0 : ℝ) < td := by linarith
  obtain ⟨hes_pos, hes_le⟩ := es_cold_bound td h1 h2
  have hee : e td td = es td := e_self td
  have hp : p 101300 = 1013 := by norm_num [p]
  have hpo : po = 1000 := by norm_num [po]
  have hpe_pos : 0 < p 101300 - e td td := by rw [hp, hee]; linarith
  have hpe_lo : 1011.7776 ≤ p 101300 - e td td := by rw [hp, hee]; linarith
  have he_pos : 0 < e td td := by rw [hee]; exact hes_pos
  -- mixing ratio bounds
  have hr_pos : 0 < r td td 101300 := by
    rw [r]
    have hep2 : (0 : ℝ) < ep2 := by norm_num [ep2]
    exact div_pos (mul_pos hep2 he_pos) hpe_pos
  have hr_hi : r td td 101300 ≤ 7.515e-4 := by
    rw [r, div_le_iff hpe_pos]
    have hep2 : ep2 = 0.622 := rfl
    rw [hee] at *
    nlinarith
  -- LCL temperature
  have hTL : temp_lifted_condensation_level td td = td := TL_self td (ne_of_gt htd0)
  -- exponential argument bound
  have h3036hi : 3036.0 / td ≤ 30.36 := by
    rw [div_le_iff htd0]
    linarith
  have h3036lo : (13.17 : ℝ) ≤ 3036.0 / td := by
    rw [le_div_iff htd0]
    linarith
  have hfac1 : 3036.0 / td - 1.78 ≤ 28.58 := by linarith
  have hfac1pos : 0 < 3036.0 / td - 1.78 := by linarith
  have hfac3 : 1.0 + 0.448 * r td td 101300 ≤ 1.000337 := by linarith
  have hfac3pos : 0 < 1.0 + 0.448 * r td td 101300 := by linarith
  have step1 : (3036.0 / td - 1.78) * r td td 101300 ≤ 28.58 * 7.515e-4 :=
    mul_le_mul hfac1 hr_hi (le_of_lt hr_pos) (by norm_num)
  have step1pos : 0 ≤ (3036.0 / td - 1.78) * r td td 101300 :=
    mul_nonneg (le_of_lt hfac1pos) (le_of_lt hr_pos)
  have hG_hi : (3036.0 / td - 1.78) * r td td 101300 *
      (1.0 + 0.448 * r td td 101300) ≤ 0.0215 := by
    have := mul_le_mul step1 hfac3 (le_of_lt hfac3pos) (by norm_num)
    nlinarith
  have hG_pos : 0 < (3036.0 / td - 1.78) * r td td 101300 *
      (1.0 + 0.448 * r td td 101300) :=
    mul_pos (mul_pos hfac1pos hr_pos) hfac3pos
  have hexpG : Real.exp ((3036.0 / td - 1.78) * r td td 101300 *
      (1.0 + 0.448 * r td td 101300)) ≤ 1.022 := by
    have hle := exp_le_inv_one_sub
      (g := (3036.0 / td - 1.78) * r td td 101300 * (1.0 + 0.448 * r td td 101300))
      (by linarith)
    have h978 : (0.9785 : ℝ) ≤ 1 - (3036.0 / td - 1.78) * r td td 101300 *
        (1.0 + 0.448 * r td td 101300) := by linarith
    have hinv := inv_le_inv_of_le (by norm_num : (0 : ℝ) < 0.9785) h978
    have : ((0.9785 : ℝ))⁻¹ ≤ 1.022 := by norm_num
    linarith
  -- the TE product formula at saturation
  have hlam : 1.0 / lam = POISSON_DRY_AIR := by
    rw [lam]
    norm_num [POISSON_DRY_AIR]
  have hTE_eq : TE td td 101300 =
      td * (p 101300 / (p 101300 - e td td)) ^ POISSON_DRY_AIR *
        Real.exp ((3036.0 / td - 1.78) * r td td 101300 *
          (1.0 + 0.448 * r td td 101300)) := by
    rw [TE, temp_equivalent_potential, temp_potential_lifted_condensation_level,
      hTL, div_self (ne_of_gt htd0), Real.one_rpow, mul_one,
      pressure_nondimensional, hlam]
    have hmul : (po / (p 101300 - e td td)) ^ POISSON_DRY_AIR *
        (p 101300 / po) ^ POISSON_DRY_AIR =
        (p 101300 / (p 101300 - e td td)) ^ POISSON_DRY_AIR := by
      rw [← Real.mul_rpow (by positivity) (by positivity)]
      congr 1
      have hne : (1013 : ℝ) - e td td ≠ 0 := by
        have h := hpe_pos
        rw [hp] at h
        exact ne_of_gt h
      rw [hp, hpo]
      field_simp
      ring
    calc td * (po / (p 101300 - e td td)) ^ POISSON_DRY_AIR *
          Real.exp ((3036.0 / td - 1.78) * r td td 101300 *
            (1.0 + 0.448 * r td td 101300)) *
          (p 101300 / po) ^ POISSON_DRY_AIR
        = td * ((po / (p 101300 - e td td)) ^ POISSON_DRY_AIR *
            (p 101300 / po) ^ POISSON_DRY_AIR) *
          Real.exp ((3036.0 / td - 1.78) * r td td 101300 *
            (1.0 + 0.448 * r td td 101300)) := by ring
      _ = td * (p 101300 / (p 101300 - e td td)) ^ POISSON_DRY_AIR *
          Real.exp ((3036.0 / td - 1.78) * r td td 101300 *
            (1.0 + 0.448 * r td td 101300)) := by rw [hmul]
  -- TE bounds
  have hbase_ge1 : 1 ≤ p 101300 / (p 101300 - e td td) := by
    rw [le_div_iff hpe_pos]
    linarith
  have hbase_hi : p 101300 / (p 101300 - e td td) ≤ 1013 / 1011.7776 := by
    rw [div_le_div_iff hpe_pos (by norm_num), hp]
    nlinarith
  have hK01 : POISSON_DRY_AIR ≤ 1 := by norm_num [POISSON_DRY_AIR]
  have hrpow_le : (p 101300 / (p 101300 - e td td)) ^ POISSON_DRY_AIR ≤
      p 101300 / (p 101300 - e td td) := by
    have h := Real.rpow_le_rpow_of_exponent_le hbase_ge1 hK01
    rwa [Real.rpow_one] at h
  have hrpow_pos : 0 < (p 101300 / (p 101300 - e td td)) ^ POISSON_DRY_AIR :=
    Real.rpow_pos_of_pos (by linarith) _
  have hTE_pos : 0 < TE td td 101300 := by
    rw [hTE_eq]
    exact mul_pos (mul_pos htd0 hrpow_pos) (Real.exp_pos _)
  have hTE_hi : TE td td 101300 ≤ 235.86 := by
    rw [hTE_eq]
    have hA : td * (p 101300 / (p 101300 - e td td)) ^ POISSON_DRY_AIR ≤
        td * (1013 / 1011.7776) :=
      mul_le_mul_of_nonneg_left (le_trans hrpow_le hbase_hi) (le_of_lt htd0)
    have hApos : 0 < td * (p 101300 / (p 101300 - e td td)) ^ POISSON_DRY_AIR :=
      mul_pos htd0 hrpow_pos
    have hB := mul_le_mul hA hexpG (le_of_lt (Real.exp_pos _)) (by positivity)
    nlinarith
  -- threshold comparison
  have hz : TEMP_ZEROCELSIUS = (273.15 : ℝ) := rfl
  have hb_ge : (1.158 : ℝ) ≤ TEMP_ZEROCELSIUS / TE td td 101300 := by
    rw [le_div_iff hTE_pos, hz]
    nlinarith
  have hb_ge1 : (1 : ℝ) ≤ TEMP_ZEROCELSIUS / TE td td 101300 := by linarith
  have hpi_ge1 : 1 ≤ pressure_nondimensional 101300 := by
    rw [pressure_nondimensional]
    have hbase : (1 : ℝ) ≤ p 101300 / po := by rw [hp, hpo]; norm_num
    have hexp0 : (0 : ℝ) ≤ 1.0 / lam := by
      rw [hlam]
      norm_num [POISSON_DRY_AIR]
    have h := Real.rpow_le_rpow_of_exponent_le hbase hexp0
    rwa [Real.rpow_zero] at h
  have hD_pos : 0 < D_pi 101300 := by
    rw [D_pi]
    have : 0 < 0.1859 * pressure_nondimensional 101300 / po + 0.6512 := by
      rw [hpo]
      nlinarith
    positivity
  have hD_hi : D_pi 101300 ≤ 1.5352 := by
    rw [D_pi, hpo]
    have hden : (0.6513859 : ℝ) ≤ 0.1859 * pressure_nondimensional 101300 / 1000 + 0.6512 := by
      nlinarith
    have h := one_div_le_one_div_of_le (by norm_num : (0 : ℝ) < 0.6513859) hden
    have : (1 : ℝ) / 0.6513859 ≤ 1.5352 := by norm_num
    linarith
  have hcote_pos : 0 < cote td td 101300 :=
    Real.rpow_pos_of_pos (div_pos (by rw [hz]; norm_num) hTE_pos) _
  have h2lam : (7 : ℝ) ≤ lam + lam := by
    rw [lam]
    norm_num [POISSON_DRY_AIR]
  have hcote_sq : (1.158 : ℝ) ^ (7 : ℕ) ≤ cote td td 101300 ^ (2 : ℕ) := by
    rw [cote]
    have hbp : 0 < TEMP_ZEROCELSIUS / TE td td 101300 := by linarith
    have hsq : ((TEMP_ZEROCELSIUS / TE td td 101300) ^ lam) ^ (2 : ℕ) =
        (TEMP_ZEROCELSIUS / TE td td 101300) ^ (lam + lam) := by
      rw [sq, ← Real.rpow_add hbp]
    rw [hsq]
    have hstep : (TEMP_ZEROCELSIUS / TE td td 101300) ^ ((7 : ℕ) : ℝ) ≤
        (TEMP_ZEROCELSIUS / TE td td 101300) ^ (lam + lam) :=
      Real.rpow_le_rpow_of_exponent_le hb_ge1 (by push_cast; linarith)
    rw [Real.rpow_natCast] at hstep
    have hpow : (1.158 : ℝ) ^ (7 : ℕ) ≤ (TEMP_ZEROCELSIUS / TE td td 101300) ^ (7 : ℕ) :=
      pow_le_pow_left (by norm_num) hb_ge 7
    linarith
  have hfinal : D_pi 101300 < cote td td 101300 := by
    have hDsq : D_pi 101300 ^ (2 : ℕ) ≤ (1.5352 : ℝ) ^ (2 : ℕ) :=
      pow_le_pow_left (le_of_lt hD_pos) hD_hi 2
    have hnum : (1.5352 : ℝ) ^ (2 : ℕ) < (1.158 : ℝ) ^ (7 : ℕ) := by norm_num
    exact lt_of_pow_lt_pow_left 2 (le_of_lt hcote_pos) (by linarith)
  refine ⟨hfinal, ?_⟩
  have hguard : ¬(td / td ≤ 0) := by
    rw [div_self (ne_of_gt htd0)]
    norm_num
  rw [wetbulb_temperature_celsius, if_neg hguard, if_pos hfinal]

end wetbulb

namespace wetbulb

/-- At `RH = 100 %` the latent-heat dewpoint equals the dry-bulb temperature,
and for a cold dry-bulb (`100 ≤ T_K ≤ 230.5`) the public entry point hits the
`cote > D(π)` branch and raises `TypeError`. -/
lemma wetbulb_temperature_saturated_cold (t : ℝ)
    (h1 : 100 ≤ celsius2kelvin t) (h2 : celsius2kelvin t ≤ 230.5)
    (hlhv : LHV (celsius2kelvin t) ≠ 0) :
    wetbulb_temperature t 100 = .error .typeError := by
  have hdk : dewpoint_temperature_kelvin 100 (celsius2kelvin t) =
      .ok (celsius2kelvin t) := by
    rw [dewpoint_temperature_kelvin, if_neg (by norm_num)]
    congr 1
    rw [dewpoint_temperature_kelvin_val,
      show (100 : ℝ) * 0.01 = 1 by norm_num, Real.log_one, mul_zero, sub_zero,
      mul_div_assoc, div_self hlhv, mul_one]
  rw [wetbulb_temperature, hdk]
  simp only [Except.bind]
  exact (branch1_saturated_cold (celsius2kelvin t) h1 h2).2

end wetbulb

/-- C1: the `cote > D(π)` regime is reached (for example by a saturated parcel
at `temp_drybulb = temp_dewpoint = 173.15` K, `ps = 101300` Pa), and there the
code raises `TypeError` instead of returning
`T_E − 273.15 − A·rs_TE/(1 + A·rs_TE·d)`: line 137 of src/wetbulb.py,
`d_este = svp2 * svp4 / (TE - TEMP_ZEROCELSIUS + svp4) ^ 2`, applies Python's
bitwise xor `^` to the float `svp2 * svp4 / (TE - TEMP_ZEROCELSIUS + svp4)`,
which is a `TypeError` — not the claimed squared-denominator exponentiation. -/
theorem c1_wetbulb_regime_xor_bug :
    wetbulb.D_pi 101300 < wetbulb.cote 173.15 173.15 101300 ∧
      wetbulb.wetbulb_temperature_celsius 173.15 173.15 101300 =
        .error .typeError :=
  wetbulb.branch1_saturated_cold 173.15 (by norm_num) (by norm_num)

/-- C2: the public wet-bulb entry point is not total on `0 < RH ≤ 100`: at
`T = -100` °C, `RH = 100 %` (a saturated cold parcel) the computation reaches
the `cote > D(π)` branch, whose `^ 2` is Python bitwise xor on a float, and
raises `TypeError` instead of returning a real number. -/
theorem c2_wetbulb_not_total :
    wetbulb.wetbulb_temperature (-100) 100 = .error .typeError := by
  have h : wetbulb.celsius2kelvin (-100) = 173.15 := by
    norm_num [wetbulb.celsius2kelvin, wetbulb.TEMP_ZEROCELSIUS]
  have := wetbulb.wetbulb_temperature_saturated_cold (-100)
    (by rw [h]; norm_num) (by rw [h]; norm_num)
    (by rw [h]; norm_num [wetbulb.LHV, wetbulb.GCX])
  exact this

/-- C4: the claimed bracketing `dewpoint_all(T,RH) ≤ wetbulb(T,RH) ≤ T` fails
inside the claimed domain: at `T = -45` °C, `RH = 100 %`, `dewpoint_all`
raises `AssertionError` (strict chained assert at saturation) and
`wetbulb_temperature` raises `TypeError` (the `^ 2` xor slip in the
`cote > D(π)` regime), so neither side of the bracket is a returned value
and `wetbulb(T, 100) ≈ T` does not hold either. -/
theorem c4_bracketing_fails :
    dewpoint.dewpoint_all (-45) 100 = .error .assertionError ∧
      wetbulb.wetbulb_temperature (-45) 100 = .error .typeError := by
  refine ⟨dewpoint.dewpoint_all_rh100 (-45), ?_⟩
  have h : wetbulb.celsius2kelvin (-45) = 228.15 := by
    norm_num [wetbulb.celsius2kelvin, wetbulb.TEMP_ZEROCELSIUS]
  exact wetbulb.wetbulb_temperature_saturated_cold (-45)
    (by rw [h]; norm_num) (by rw [h]; norm_num)
    (by rw [h]; norm_num [wetbulb.LHV, wetbulb.GCX])

namespace dewpoint

/-- The Magnus inversion `L ↦ λ·L/(β-L)` is monotone on any interval where the
two denominators have the same sign. -/
lemma magnus_inv_mono (L1 L2 : ℝ) (h12 : L1 ≤ L2)
    (hprod : 0 < (beta - L1) * (beta - L2)) :
    lambda_ * L1 / (beta - L1) ≤ lambda_ * L2 / (beta - L2) := by
  have h1 : beta - L1 ≠ 0 := by
    intro h0
    rw [h0, zero_mul] at hprod
    exact lt_irrefl _ hprod
  have h2 : beta - L2 ≠ 0 := by
    intro h0
    rw [h0, mul_zero] at hprod
    exact lt_irrefl _ hprod
  have key : lambda_ * L2 / (beta - L2) - lambda_ * L1 / (beta - L1) =
      lambda_ * beta * (L2 - L1) / ((beta - L1) * (beta - L2)) := by
    field_simp
    ring
  have hnum : 0 ≤ lambda_ * beta * (L2 - L1) :=
    mul_nonneg (le_of_lt (mul_pos lambda_pos beta_pos)) (by linarith)
  have : 0 ≤ lambda_ * L2 / (beta - L2) - lambda_ * L1 / (beta - L1) := by
    rw [key]
    exact div_nonneg hnum (le_of_lt hprod)
  linarith

/-- Window bound for a Magnus quotient: if `A ≤ M ≤ B` and the denominators
keep one sign across the window, rational bounds at the endpoints bound the
quotient at `M`. -/
lemma magnus_quot_bounds (M A B target : ℝ) (hA : A ≤ M) (hB : M ≤ B)
    (hsign : beta < A ∨ B < beta)
    (hlo : target - 0.2 ≤ lambda_ * A / (beta - A))
    (hhi : lambda_ * B / (beta - B) ≤ target + 0.2) :
    |lambda_ * M / (beta - M) - target| ≤ 0.2 := by
  have hprodA : 0 < (beta - A) * (beta - M) := by
    rcases hsign with h | h
    · exact mul_pos_of_neg_of_neg (by linarith) (by linarith)
    · exact mul_pos (by linarith) (by linarith)
  have hprodB : 0 < (beta - M) * (beta - B) := by
    rcases hsign with h | h
    · exact mul_pos_of_neg_of_neg (by linarith) (by linarith)
    · exact mul_pos (by linarith) (by linarith)
  have h1 := magnus_inv_mono A M hA hprodA
  have h2 := magnus_inv_mono M B hB hprodB
  rw [abs_le]
  constructor <;> linarith

/-- Window bound for `dewpoint_1_val` from windows on `log(rh/100)` and on the
Magnus exponent. -/
lemma dp1_window (t rh target u1 u2 x1 x2 : ℝ) (hrh : 0 < rh)
    (hu1 : u1 ≤ Real.log (rh / 100)) (hu2 : Real.log (rh / 100) ≤ u2)
    (hx1 : x1 ≤ beta * t / (lambda_ + t)) (hx2 : beta * t / (lambda_ + t) ≤ x2)
    (hsign : beta < u1 + x1 ∨ u2 + x2 < beta)
    (hlo : target - 0.2 ≤ lambda_ * (u1 + x1) / (beta - (u1 + x1)))
    (hhi : lambda_ * (u2 + x2) / (beta - (u2 + x2)) ≤ target + 0.2) :
    |dewpoint_1_val t rh - target| ≤ 0.2 := by
  have hd : dewpoint_1_val t rh =
      lambda_ * dp_zeroeth_part t rh / (beta - dp_zeroeth_part t rh) := by
    rw [dewpoint_1_val, log_vp_over_alpha t rh hrh]
  have hLd : dp_zeroeth_part t rh =
      Real.log (rh / 100) + beta * t / (lambda_ + t) := rfl
  rw [hd]
  exact magnus_quot_bounds (dp_zeroeth_part t rh) (u1 + x1) (u2 + x2) target
    (by rw [hLd]; linarith) (by rw [hLd]; linarith) hsign hlo hhi

/-- The relative-humidity ratio is the exponential of the difference of the
two Magnus exponents. -/
lemma relative_humidity_exp (t td : ℝ) :
    relative_humidity t td =
      Real.exp (beta * td / (lambda_ + td) - beta * t / (lambda_ + t)) := by
  rw [relative_humidity, saturation_vapour_pressure_eq, saturation_vapour_pressure_eq,
    mul_div_mul_left _ _ alpha_ne, ← Real.exp_sub]

/-- Window bound for `relative_humidity · 100` from a window on the exponent
difference and rational bounds on the exponential at the window ends. -/
lemma relative_humidity_window (t td rh w1 w2 elo ehi : ℝ)
    (hw1 : w1 ≤ beta * td / (lambda_ + td) - beta * t / (lambda_ + t))
    (hw2 : beta * td / (lambda_ + td) - beta * t / (lambda_ + t) ≤ w2)
    (helo : elo ≤ Real.exp w1) (hehi : Real.exp w2 ≤ ehi)
    (hlo : rh - 0.2 ≤ elo * 100) (hhi : ehi * 100 ≤ rh + 0.2) :
    |relative_humidity t td * 100 - rh| ≤ 0.2 := by
  rw [relative_humidity_exp]
  have h1 : Real.exp w1 ≤ Real.exp (beta * td / (lambda_ + td) - beta * t / (lambda_ + t)) :=
    Real.exp_le_exp.mpr hw1
  have h2 : Real.exp (beta * td / (lambda_ + td) - beta * t / (lambda_ + t)) ≤ Real.exp w2 :=
    Real.exp_le_exp.mpr hw2
  rw [abs_le]
  constructor <;> nlinarith

/-- `temperature td rh` in closed form for `rh > 0`. -/
lemma temperature_eval (td rh : ℝ) (hrh : 0 < rh) :
    temperature td rh = .ok
      (lambda_ * (beta * td / (lambda_ + td) - Real.log (rh / 100)) /
        (beta - (beta * td / (lambda_ + td) - Real.log (rh / 100)))) := by
  have hrh100 : (0 : ℝ) < rh / 100 := by positivity
  have hpst : temperature_pst td rh / alpha =
      Real.exp (beta * td / (lambda_ + td)) / (rh / 100) := by
    rw [temperature_pst, saturation_vapour_pressure_eq]
    field_simp [alpha_ne, ne_of_gt hrh]
    ring
  have hlog : Real.log (temperature_pst td rh / alpha) =
      beta * td / (lambda_ + td) - Real.log (rh / 100) := by
    rw [hpst, Real.log_div (Real.exp_ne_zero _) (ne_of_gt hrh100), Real.log_exp]
  rw [temperature, if_neg (by rw [hpst]; exact not_le.mpr (by positivity)),
    temperature_val, hlog]

/-- Window bound for the `temperature` round trip at a fixed dewpoint `td`. -/
lemma temperature_window (td rh ttarget u1 u2 y1 y2 : ℝ) (hrh : 0 < rh)
    (hu1 : u1 ≤ Real.log (rh / 100)) (hu2 : Real.log (rh / 100) ≤ u2)
    (hy1 : y1 ≤ beta * td / (lambda_ + td)) (hy2 : beta * td / (lambda_ + td) ≤ y2)
    (hsign : beta < y1 - u2 ∨ y2 - u1 < beta)
    (hlo : ttarget - 0.2 ≤ lambda_ * (y1 - u2) / (beta - (y1 - u2)))
    (hhi : lambda_ * (y2 - u1) / (beta - (y2 - u1)) ≤ ttarget + 0.2) :
    ∃ tv, temperature td rh = .ok tv ∧ |tv - ttarget| ≤ 0.2 := by
  refine ⟨_, temperature_eval td rh hrh, ?_⟩
  exact magnus_quot_bounds _ (y1 - u2) (y2 - u1) ttarget
    (by linarith) (by linarith) hsign hlo hhi

end dewpoint

section ExpTools

/-- Degree-5 Taylor lower bound for `exp` at a nonnegative point. -/
lemma exp_taylor6_lower (f : ℝ) (h0 : 0 ≤ f) :
    1 + f + f ^ 2 / 2 + f ^ 3 / 6 + f ^ 4 / 24 + f ^ 5 / 120 ≤ Real.exp f := by
  have h := Real.sum_le_exp_of_nonneg h0 6
  simp only [Finset.sum_range_succ, Finset.sum_range_zero, Nat.factorial] at h
  norm_num at h
  linarith

/-- Degree-5 Taylor upper bound for `exp` on `[0, 1]` with remainder. -/
lemma exp_taylor6_upper (f : ℝ) (h0 : 0 ≤ f) (h1 : f ≤ 1) :
    Real.exp f ≤ 1 + f + f ^ 2 / 2 + f ^ 3 / 6 + f ^ 4 / 24 + f ^ 5 / 120 +
      f ^ 6 * (7 / 4320) := by
  have h := Real.exp_bound (x := f) (by rwa [abs_of_nonneg h0]) (n := 6) (by norm_num)
  rw [abs_of_nonneg h0] at h
  simp only [Finset.sum_range_succ, Finset.sum_range_zero, Nat.factorial] at h
  rw [abs_le] at h
  obtain ⟨-, h2⟩ := h
  norm_num at h2
  linarith

/-- Transfer bounds on `exp a` to bounds on `exp (-a)`. -/
lemma exp_neg_of_bounds (a lo hi : ℝ) (h0 : 0 < lo)
    (hlo : lo ≤ Real.exp a) (hhi : Real.exp a ≤ hi) :
    hi⁻¹ ≤ Real.exp (-a) ∧ Real.exp (-a) ≤ lo⁻¹ := by
  rw [Real.exp_neg]
  constructor
  · exact inv_le_inv_of_le (lt_of_lt_of_le h0 hlo) hhi
  · exact inv_le_inv_of_le h0 hlo

end ExpTools

section ScenarioLogWindows

lemma log_win_32 : -1.13944 ≤ Real.log ((32 : ℝ) / 100) ∧
    Real.log ((32 : ℝ) / 100) ≤ -1.13943 := by
  have h : Real.log ((32 : ℝ) / 100) = 5 * Real.log 2 - 2 * Real.log 10 := by
    rw [Real.log_div (by norm_num) (by norm_num),
      show (32 : ℝ) = 2 ^ (5 : ℕ) by norm_num,
      show (100 : ℝ) = 10 ^ (2 : ℕ) by norm_num, Real.log_pow, Real.log_pow]
    push_cast
    ring
  obtain ⟨h10a, h10b⟩ := log_ten_bounds
  have h2a := Real.log_two_gt_d9
  have h2b := Real.log_two_lt_d9
  rw [h]
  constructor <;> nlinarith

lemma log_win_10 : -2.30258510 ≤ Real.log ((10 : ℝ) / 100) ∧
    Real.log ((10 : ℝ) / 100) ≤ -2.30258508 := by
  have h : Real.log ((10 : ℝ) / 100) = -Real.log 10 := by
    rw [show (10 : ℝ) / 100 = ((10 : ℝ))⁻¹ by norm_num, Real.log_inv]
  obtain ⟨h10a, h10b⟩ := log_ten_bounds
  rw [h]
  constructor <;> linarith

lemma log_win_90 : -(1 / 9 : ℝ) ≤ Real.log ((90 : ℝ) / 100) ∧
    Real.log ((90 : ℝ) / 100) ≤ -0.1 := by
  have h : (90 : ℝ) / 100 = 1 - 0.1 := by norm_num
  rw [h]
  refine ⟨?_, log_one_sub_le (by norm_num) (by norm_num)⟩
  have := log_one_sub_ge (x := (0.1 : ℝ)) (by norm_num) (by norm_num)
  have heq : (-0.1 : ℝ) / (1 - 0.1) = -(1 / 9) := by norm_num
  linarith [heq ▸ this]

lemma log_win_50 : -0.6931471808 ≤ Real.log ((50 : ℝ) / 100) ∧
    Real.log ((50 : ℝ) / 100) ≤ -0.6931471803 := by
  have h : Real.log ((50 : ℝ) / 100) = -Real.log 2 := by
    rw [show (50 : ℝ) / 100 = ((2 : ℝ))⁻¹ by norm_num, Real.log_inv]
  have h2a := Real.log_two_gt_d9
  have h2b := Real.log_two_lt_d9
  rw [h]
  constructor <;> linarith

lemma log_win_1 : -4.60517020 ≤ Real.log ((1 : ℝ) / 100) ∧
    Real.log ((1 : ℝ) / 100) ≤ -4.60517016 := by
  have h : Real.log ((1 : ℝ) / 100) = -(2 * Real.log 10) := by
    rw [show (1 : ℝ) / 100 = ((100 : ℝ))⁻¹ by norm_num, Real.log_inv,
      show (100 : ℝ) = 10 ^ (2 : ℕ) by norm_num, Real.log_pow]
    push_cast
    ring
  obtain ⟨h10a, h10b⟩ := log_ten_bounds
  rw [h]
  constructor <;> nlinarith

lemma log_win_01 : -6.90775530 ≤ Real.log ((0.1 : ℝ) / 100) ∧
    Real.log ((0.1 : ℝ) / 100) ≤ -6.90775524 := by
  have h : Real.log ((0.1 : ℝ) / 100) = -(3 * Real.log 10) := by
    rw [show (0.1 : ℝ) / 100 = ((1000 : ℝ))⁻¹ by norm_num, Real.log_inv,
      show (1000 : ℝ) = 10 ^ (3 : ℕ) by norm_num, Real.log_pow]
    push_cast
    ring
  obtain ⟨h10a, h10b⟩ := log_ten_bounds
  rw [h]
  constructor <;> nlinarith

lemma log_1p01_bounds : (1 / 101 : ℝ) ≤ Real.log 1.01 ∧
    Real.log 1.01 ≤ 1 / 100 := by
  have h : Real.log (1.01 : ℝ) = -Real.log (1 - 1 / 101) := by
    rw [show (1 : ℝ) - 1 / 101 = 100 / 101 by norm_num,
      show (1.01 : ℝ) = ((100 : ℝ) / 101)⁻¹ by norm_num, Real.log_inv]
  have hle := log_one_sub_le (x := (1 / 101 : ℝ)) (by norm_num) (by norm_num)
  have hge := log_one_sub_ge (x := (1 / 101 : ℝ)) (by norm_num) (by norm_num)
  have heq : -(1 / 101 : ℝ) / (1 - 1 / 101) = -(1 / 100) := by norm_num
  rw [h]
  constructor
  · linarith
  · linarith [heq ▸ hge]

lemma log_win_0101 : -6.89785431 ≤ Real.log ((0.101 : ℝ) / 100) ∧
    Real.log ((0.101 : ℝ) / 100) ≤ -6.89775524 := by
  have h : Real.log ((0.101 : ℝ) / 100) = Real.log 1.01 - 3 * Real.log 10 := by
    rw [show (0.101 : ℝ) / 100 = 1.01 * ((1000 : ℝ))⁻¹ by norm_num,
      Real.log_mul (by norm_num) (by norm_num), Real.log_inv,
      show (1000 : ℝ) = 10 ^ (3 : ℕ) by norm_num, Real.log_pow]
    push_cast
    ring
  obtain ⟨h10a, h10b⟩ := log_ten_bounds
  obtain ⟨ha, hb⟩ := log_1p01_bounds
  rw [h]
  constructor <;> nlinarith

lemma log_win_99 : -(1 / 99 : ℝ) ≤ Real.log ((99 : ℝ) / 100) ∧
    Real.log ((99 : ℝ) / 100) ≤ -0.01 := by
  have h : (99 : ℝ) / 100 = 1 - 0.01 := by norm_num
  rw [h]
  refine ⟨?_, log_one_sub_le (by norm_num) (by norm_num)⟩
  have := log_one_sub_ge (x := (0.01 : ℝ)) (by norm_num) (by norm_num)
  have heq : (-0.01 : ℝ) / (1 - 0.01) = -(1 / 99) := by norm_num
  linarith [heq ▸ this]

end ScenarioLogWindows

section ExpSplit

lemma exp_add_nat_lower (k : ℕ) (f lo : ℝ) (h0 : 0 ≤ f)
    (hlo : lo ≤ 2.7182818283 ^ k *
      (1 + f + f ^ 2 / 2 + f ^ 3 / 6 + f ^ 4 / 24 + f ^ 5 / 120)) :
    lo ≤ Real.exp ((k : ℝ) + f) := by
  rw [Real.exp_add]
  have hek : (2.7182818283 : ℝ) ^ k ≤ Real.exp (k : ℝ) := by
    rw [show Real.exp (k : ℝ) = Real.exp 1 ^ k from (Real.exp_one_pow k).symm]
    exact pow_le_pow_left (by norm_num) (le_of_lt Real.exp_one_gt_d9) k
  have hS := exp_taylor6_lower f h0
  have hSpos : (0 : ℝ) ≤ 1 + f + f ^ 2 / 2 + f ^ 3 / 6 + f ^ 4 / 24 + f ^ 5 / 120 := by
    positivity
  have hmul := mul_le_mul hek hS hSpos (le_of_lt (Real.exp_pos _))
  linarith

lemma exp_add_nat_upper (k : ℕ) (f hi : ℝ) (h0 : 0 ≤ f) (h1 : f ≤ 1)
    (hhi : 2.7182818286 ^ k *
      (1 + f + f ^ 2 / 2 + f ^ 3 / 6 + f ^ 4 / 24 + f ^ 5 / 120 + f ^ 6 * (7 / 4320)) ≤ hi) :
    Real.exp ((k : ℝ) + f) ≤ hi := by
  rw [Real.exp_add]
  have hek : Real.exp (k : ℝ) ≤ (2.7182818286 : ℝ) ^ k := by
    rw [show Real.exp (k : ℝ) = Real.exp 1 ^ k from (Real.exp_one_pow k).symm]
    exact pow_le_pow_left (le_of_lt (Real.exp_pos 1)) (le_of_lt Real.exp_one_lt_d9) k
  have hS := exp_taylor6_upper f h0 h1
  have hmul := mul_le_mul hek hS (le_of_lt (Real.exp_pos _)) (by positivity)
  linarith

end ExpSplit

lemma exp_neg_le (a lo : ℝ) (h0 : 0 < lo) (hlo : lo ≤ Real.exp a) :
    Real.exp (-a) ≤ lo⁻¹ := by
  rw [Real.exp_neg]
  exact inv_le_inv_of_le h0 hlo

lemma le_exp_neg (a hi : ℝ) (hhi : Real.exp a ≤ hi) : hi⁻¹ ≤ Real.exp (-a) := by
  rw [Real.exp_neg]
  exact inv_le_inv_of_le (Real.exp_pos a) hhi

/-- Test scenario (25.14 °C, 32 %) → dewpoint ≈ 7.335 °C with exact-tolerance
round trips (src/test_dewpoint.py, DewpointApproximationTests). -/
lemma scenario1 :
    (dewpoint.dewpoint_all 25.14 32 = .ok (dewpoint.dewpoint_1_val 25.14 32) ∧
      |dewpoint.dewpoint_1_val 25.14 32 - 7.335| ≤ 0.2) ∧
    |dewpoint.relative_humidity 25.14 7.335 * 100 - 32| ≤ 0.2 ∧
    ∃ tv, dewpoint.temperature 7.335 32 = .ok tv ∧ |tv - 25.14| ≤ 0.2 := by
  obtain ⟨hu1, hu2⟩ := log_win_32
  have hok := (dewpoint.dewpoint_all_ok_general 25.14 32 (by norm_num) (by norm_num)
    (by norm_num) (by norm_num)).1
  have hx1 : (1.651255 : ℝ) ≤ dewpoint.beta * 25.14 / (dewpoint.lambda_ + 25.14) := by
    rw [le_div_iff (by norm_num [dewpoint.lambda_])]
    norm_num [dewpoint.beta, dewpoint.lambda_]
  have hx2 : dewpoint.beta * 25.14 / (dewpoint.lambda_ + 25.14) ≤ 1.651265 := by
    rw [div_le_iff (by norm_num [dewpoint.lambda_])]
    norm_num [dewpoint.beta, dewpoint.lambda_]
  have hdp := dewpoint.dp1_window 25.14 32 7.335 (-1.13944) (-1.13943) 1.651255 1.651265
    (by norm_num) hu1 hu2 hx1 hx2
    (Or.inr (by norm_num [dewpoint.beta]))
    (by rw [dewpoint.beta, dewpoint.lambda_]; rw [le_div_iff (by norm_num)]; norm_num)
    (by rw [dewpoint.beta, dewpoint.lambda_]; rw [div_le_iff (by norm_num)]; norm_num)
  have hy1 : (0.516031 : ℝ) ≤ dewpoint.beta * 7.335 / (dewpoint.lambda_ + 7.335) := by
    rw [le_div_iff (by norm_num [dewpoint.lambda_])]
    norm_num [dewpoint.beta, dewpoint.lambda_]
  have hy2 : dewpoint.beta * 7.335 / (dewpoint.lambda_ + 7.335) ≤ 0.516032 := by
    rw [div_le_iff (by norm_num [dewpoint.lambda_])]
    norm_num [dewpoint.beta, dewpoint.lambda_]
  have hcast1 : ((1 : ℕ) : ℝ) + 0.135223 = 1.135223 := by push_cast; norm_num
  have hcast2 : ((1 : ℕ) : ℝ) + 0.135234 = 1.135234 := by push_cast; norm_num
  have hexp_lo : (3.1117 : ℝ) ≤ Real.exp 1.135223 := by
    have h := exp_add_nat_lower 1 0.135223 3.1117 (by norm_num) (by norm_num)
    rwa [hcast1] at h
  have hexp_hi : Real.exp 1.135234 ≤ 3.1121 := by
    have h := exp_add_nat_upper 1 0.135234 3.1121 (by norm_num) (by norm_num) (by norm_num)
    rwa [hcast2] at h
  have hrh := dewpoint.relative_humidity_window 25.14 7.335 32
    (-1.135234) (-1.135223) ((3.1121 : ℝ)⁻¹) ((3.1117 : ℝ)⁻¹)
    (by linarith) (by linarith)
    (by rw [show (-1.135234 : ℝ) = -(1.135234) by norm_num]
        exact le_exp_neg _ _ hexp_hi)
    (by rw [show (-1.135223 : ℝ) = -(1.135223) by norm_num]
        exact exp_neg_le _ _ (by norm_num) hexp_lo)
    (by norm_num) (by norm_num)
  have htmp := dewpoint.temperature_window 7.335 32 25.14
    (-1.13944) (-1.13943) 0.516031 0.516032 (by norm_num) hu1 hu2 hy1 hy2
    (Or.inr (by norm_num [dewpoint.beta]))
    (by rw [dewpoint.beta, dewpoint.lambda_]; rw [le_div_iff (by norm_num)]; norm_num)
    (by rw [dewpoint.beta, dewpoint.lambda_]; rw [div_le_iff (by norm_num)]; norm_num)
  exact ⟨⟨hok, hdp⟩, hrh, htmp⟩

/-- Test scenario (25 °C, 10 %) → dewpoint ≈ −8.77 °C with round trips. -/
lemma scenario2 :
    (dewpoint.dewpoint_all 25 10 = .ok (dewpoint.dewpoint_1_val 25 10) ∧
      |dewpoint.dewpoint_1_val 25 10 - (-8.77)| ≤ 0.2) ∧
    |dewpoint.relative_humidity 25 (-8.77) * 100 - 10| ≤ 0.2 ∧
    ∃ tv, dewpoint.temperature (-8.77) 10 = .ok tv ∧ |tv - 25| ≤ 0.2 := by
  obtain ⟨hu1, hu2⟩ := log_win_10
  have hok := (dewpoint.dewpoint_all_ok_general 25 10 (by norm_num) (by norm_num)
    (by norm_num) (by norm_num)).1
  have hx1 : (1.642921 : ℝ) ≤ dewpoint.beta * 25 / (dewpoint.lambda_ + 25) := by
    rw [le_div_iff (by norm_num [dewpoint.lambda_])]
    norm_num [dewpoint.beta, dewpoint.lambda_]
  have hx2 : dewpoint.beta * 25 / (dewpoint.lambda_ + 25) ≤ 1.642922 := by
    rw [div_le_iff (by norm_num [dewpoint.lambda_])]
    norm_num [dewpoint.beta, dewpoint.lambda_]
  have hdp := dewpoint.dp1_window 25 10 (-8.77) (-2.30258510) (-2.30258508)
    1.642921 1.642922 (by norm_num) hu1 hu2 hx1 hx2
    (Or.inr (by norm_num [dewpoint.beta]))
    (by rw [dewpoint.beta, dewpoint.lambda_]; rw [le_div_iff (by norm_num)]; norm_num)
    (by rw [dewpoint.beta, dewpoint.lambda_]; rw [div_le_iff (by norm_num)]; norm_num)
  have hy1 : (-0.659388 : ℝ) ≤ dewpoint.beta * (-8.77) / (dewpoint.lambda_ + (-8.77)) := by
    rw [le_div_iff (by norm_num [dewpoint.lambda_])]
    norm_num [dewpoint.beta, dewpoint.lambda_]
  have hy2 : dewpoint.beta * (-8.77) / (dewpoint.lambda_ + (-8.77)) ≤ -0.659387 := by
    rw [div_le_iff (by norm_num [dewpoint.lambda_])]
    norm_num [dewpoint.beta, dewpoint.lambda_]
  have hcast1 : ((2 : ℕ) : ℝ) + 0.302308 = 2.302308 := by push_cast; norm_num
  have hcast2 : ((2 : ℕ) : ℝ) + 0.302310 = 2.302310 := by push_cast; norm_num
  have hexp_lo : (9.9970 : ℝ) ≤ Real.exp 2.302308 := by
    have h := exp_add_nat_lower 2 0.302308 9.9970 (by norm_num) (by norm_num)
    rwa [hcast1] at h
  have hexp_hi : Real.exp 2.302310 ≤ 9.9976 := by
    have h := exp_add_nat_upper 2 0.302310 9.9976 (by norm_num) (by norm_num) (by norm_num)
    rwa [hcast2] at h
  have hrh := dewpoint.relative_humidity_window 25 (-8.77) 10
    (-2.302310) (-2.302308) ((9.9976 : ℝ)⁻¹) ((9.9970 : ℝ)⁻¹)
    (by linarith) (by linarith)
    (by rw [show (-2.302310 : ℝ) = -(2.302310) by norm_num]
        exact le_exp_neg _ _ hexp_hi)
    (by rw [show (-2.302308 : ℝ) = -(2.302308) by norm_num]
        exact exp_neg_le _ _ (by norm_num) hexp_lo)
    (by norm_num) (by norm_num)
  have htmp := dewpoint.temperature_window (-8.77) 10 25
    (-2.30258510) (-2.30258508) (-0.659388) (-0.659387) (by norm_num) hu1 hu2 hy1 hy2
    (Or.inr (by norm_num [dewpoint.beta]))
    (by rw [dewpoint.beta, dewpoint.lambda_]; rw [le_div_iff (by norm_num)]; norm_num)
    (by rw [dewpoint.beta, dewpoint.lambda_]; rw [div_le_iff (by norm_num)]; norm_num)
  exact ⟨⟨hok, hdp⟩, hrh, htmp⟩

/-- Test scenario (50 °C, 90 %) → dewpoint ≈ 47.90 °C with round trips. -/
lemma scenario3 :
    (dewpoint.dewpoint_all 50 90 = .ok (dewpoint.dewpoint_1_val 50 90) ∧
      |dewpoint.dewpoint_1_val 50 90 - 47.90| ≤ 0.2) ∧
    |dewpoint.relative_humidity 50 47.90 * 100 - 90| ≤ 0.2 ∧
    ∃ tv, dewpoint.temperature 47.90 90 = .ok tv ∧ |tv - 50| ≤ 0.2 := by
  obtain ⟨hu1, hu2⟩ := log_win_90
  have hok := (dewpoint.dewpoint_all_ok_general 50 90 (by norm_num) (by norm_num)
    (by norm_num) (by norm_num)).1
  have hx1 : (3.005594 : ℝ) ≤ dewpoint.beta * 50 / (dewpoint.lambda_ + 50) := by
    rw [le_div_iff (by norm_num [dewpoint.lambda_])]
    norm_num [dewpoint.beta, dewpoint.lambda_]
  have hx2 : dewpoint.beta * 50 / (dewpoint.lambda_ + 50) ≤ 3.005596 := by
    rw [div_le_iff (by norm_num [dewpoint.lambda_])]
    norm_num [dewpoint.beta, dewpoint.lambda_]
  have hdp := dewpoint.dp1_window 50 90 47.90 (-(1 / 9)) (-0.1) 3.005594 3.005596
    (by norm_num) hu1 hu2 hx1 hx2
    (Or.inr (by norm_num [dewpoint.beta]))
    (by rw [dewpoint.beta, dewpoint.lambda_]; rw [le_div_iff (by norm_num)]; norm_num)
    (by rw [dewpoint.beta, dewpoint.lambda_]; rw [div_le_iff (by norm_num)]; norm_num)
  have hy1 : (2.900137 : ℝ) ≤ dewpoint.beta * 47.90 / (dewpoint.lambda_ + 47.90) := by
    rw [le_div_iff (by norm_num [dewpoint.lambda_])]
    norm_num [dewpoint.beta, dewpoint.lambda_]
  have hy2 : dewpoint.beta * 47.90 / (dewpoint.lambda_ + 47.90) ≤ 2.900139 := by
    rw [div_le_iff (by norm_num [dewpoint.lambda_])]
    norm_num [dewpoint.beta, dewpoint.lambda_]
  have hcast1 : ((0 : ℕ) : ℝ) + 0.105455 = 0.105455 := by push_cast; norm_num
  have hcast2 : ((0 : ℕ) : ℝ) + 0.105459 = 0.105459 := by push_cast; norm_num
  have hexp_lo : (1.1112 : ℝ) ≤ Real.exp 0.105455 := by
    have h := exp_add_nat_lower 0 0.105455 1.1112 (by norm_num) (by norm_num)
    rwa [hcast1] at h
  have hexp_hi : Real.exp 0.105459 ≤ 1.1113 := by
    have h := exp_add_nat_upper 0 0.105459 1.1113 (by norm_num) (by norm_num) (by norm_num)
    rwa [hcast2] at h
  have hrh := dewpoint.relative_humidity_window 50 47.90 90
    (-0.105459) (-0.105455) ((1.1113 : ℝ)⁻¹) ((1.1112 : ℝ)⁻¹)
    (by linarith) (by linarith)
    (by rw [show (-0.105459 : ℝ) = -(0.105459) by norm_num]
        exact le_exp_neg _ _ hexp_hi)
    (by rw [show (-0.105455 : ℝ) = -(0.105455) by norm_num]
        exact exp_neg_le _ _ (by norm_num) hexp_lo)
    (by norm_num) (by norm_num)
  have htmp := dewpoint.temperature_window 47.90 90 50
    (-(1 / 9)) (-0.1) 2.900137 2.900139 (by norm_num) hu1 hu2 hy1 hy2
    (Or.inr (by norm_num [dewpoint.beta]))
    (by rw [dewpoint.beta, dewpoint.lambda_]; rw [le_div_iff (by norm_num)]; norm_num)
    (by rw [dewpoint.beta, dewpoint.lambda_]; rw [div_le_iff (by norm_num)]; norm_num)
  exact ⟨⟨hok, hdp⟩, hrh, htmp⟩

/-- Test scenario (25 °C, 50 %) → dewpoint ≈ 13.85 °C with round trips. -/
lemma scenario4 :
    (dewpoint.dewpoint_all 25 50 = .ok (dewpoint.dewpoint_1_val 25 50) ∧
      |dewpoint.dewpoint_1_val 25 50 - 13.85| ≤ 0.2) ∧
    |dewpoint.relative_humidity 25 13.85 * 100 - 50| ≤ 0.2 ∧
    ∃ tv, dewpoint.temperature 13.85 50 = .ok tv ∧ |tv - 25| ≤ 0.2 := by
  obtain ⟨hu1, hu2⟩ := log_win_50
  have hok := (dewpoint.dewpoint_all_ok_general 25 50 (by norm_num) (by norm_num)
    (by norm_num) (by norm_num)).1
  have hx1 : (1.642921 : ℝ) ≤ dewpoint.beta * 25 / (dewpoint.lambda_ + 25) := by
    rw [le_div_iff (by norm_num [dewpoint.lambda_])]
    norm_num [dewpoint.beta, dewpoint.lambda_]
  have hx2 : dewpoint.beta * 25 / (dewpoint.lambda_ + 25) ≤ 1.642922 := by
    rw [div_le_iff (by norm_num [dewpoint.lambda_])]
    norm_num [dewpoint.beta, dewpoint.lambda_]
  have hdp := dewpoint.dp1_window 25 50 13.85 (-0.6931471808) (-0.6931471803)
    1.642921 1.642922 (by norm_num) hu1 hu2 hx1 hx2
    (Or.inr (by norm_num [dewpoint.beta]))
    (by rw [dewpoint.beta, dewpoint.lambda_]; rw [le_div_iff (by norm_num)]; norm_num)
    (by rw [dewpoint.beta, dewpoint.lambda_]; rw [div_le_iff (by norm_num)]; norm_num)
  have hy1 : (0.949670 : ℝ) ≤ dewpoint.beta * 13.85 / (dewpoint.lambda_ + 13.85) := by
    rw [le_div_iff (by norm_num [dewpoint.lambda_])]
    norm_num [dewpoint.beta, dewpoint.lambda_]
  have hy2 : dewpoint.beta * 13.85 / (dewpoint.lambda_ + 13.85) ≤ 0.949672 := by
    rw [div_le_iff (by norm_num [dewpoint.lambda_])]
    norm_num [dewpoint.beta, dewpoint.lambda_]
  have hcast1 : ((0 : ℕ) : ℝ) + 0.693249 = 0.693249 := by push_cast; norm_num
  have hcast2 : ((0 : ℕ) : ℝ) + 0.693252 = 0.693252 := by push_cast; norm_num
  have hexp_lo : (1.9999 : ℝ) ≤ Real.exp 0.693249 := by
    have h := exp_add_nat_lower 0 0.693249 1.9999 (by norm_num) (by norm_num)
    rwa [hcast1] at h
  have hexp_hi : Real.exp 0.693252 ≤ 2.0003 := by
    have h := exp_add_nat_upper 0 0.693252 2.0003 (by norm_num) (by norm_num) (by norm_num)
    rwa [hcast2] at h
  have hrh := dewpoint.relative_humidity_window 25 13.85 50
    (-0.693252) (-0.693249) ((2.0003 : ℝ)⁻¹) ((1.9999 : ℝ)⁻¹)
    (by linarith) (by linarith)
    (by rw [show (-0.693252 : ℝ) = -(0.693252) by norm_num]
        exact le_exp_neg _ _ hexp_hi)
    (by rw [show (-0.693249 : ℝ) = -(0.693249) by norm_num]
        exact exp_neg_le _ _ (by norm_num) hexp_lo)
    (by norm_num) (by norm_num)
  have htmp := dewpoint.temperature_window 13.85 50 25
    (-0.6931471808) (-0.6931471803) 0.949670 0.949672 (by norm_num) hu1 hu2 hy1 hy2
    (Or.inr (by norm_num [dewpoint.beta]))
    (by rw [dewpoint.beta, dewpoint.lambda_]; rw [le_div_iff (by norm_num)]; norm_num)
    (by rw [dewpoint.beta, dewpoint.lambda_]; rw [div_le_iff (by norm_num)]; norm_num)
  exact ⟨⟨hok, hdp⟩, hrh, htmp⟩

lemma exp_le_of_le_neg_six (w : ℝ) (h : w ≤ -6) : Real.exp w ≤ 0.0025 := by
  have h1 : Real.exp w ≤ Real.exp (-6) := Real.exp_le_exp.mpr h
  have h6 : (400 : ℝ) ≤ Real.exp 6 := by
    have hpow : (2.7182818283 : ℝ) ^ (6 : ℕ) ≤ Real.exp 1 ^ (6 : ℕ) :=
      pow_le_pow_left (by norm_num) (le_of_lt Real.exp_one_gt_d9) 6
    have hnum : (400 : ℝ) ≤ (2.7182818283 : ℝ) ^ (6 : ℕ) := by norm_num
    have hcast : Real.exp 1 ^ (6 : ℕ) = Real.exp ((6 : ℕ) : ℝ) := Real.exp_one_pow 6
    have : Real.exp ((6 : ℕ) : ℝ) = Real.exp 6 := by norm_num
    linarith [hcast ▸ hpow, this ▸ (hcast ▸ hpow)]
  have h2 : Real.exp (-6 : ℝ) ≤ (400 : ℝ)⁻¹ := by
    rw [Real.exp_neg]
    exact inv_le_inv_of_le (by norm_num) h6
  have : ((400 : ℝ))⁻¹ ≤ 0.0025 := by norm_num
  linarith

/-- Limit scenario (1 °C, 0.1 %) → dewpoint ≈ −68 °C with round trips
(src/test_dewpoint.py, DewpointLimitTests). -/
lemma scenario6 :
    (dewpoint.dewpoint_all 1 0.1 = .ok (dewpoint.dewpoint_1_val 1 0.1) ∧
      |dewpoint.dewpoint_1_val 1 0.1 - (-68)| ≤ 0.2) ∧
    |dewpoint.relative_humidity 1 (-68) * 100 - 0.1| ≤ 0.2 ∧
    ∃ tv, dewpoint.temperature (-68) 0.1 = .ok tv ∧ |tv - 1| ≤ 0.2 := by
  obtain ⟨hu1, hu2⟩ := log_win_01
  have hok := (dewpoint.dewpoint_all_ok_general 1 0.1 (by norm_num) (by norm_num)
    (by norm_num) (by norm_num)).1
  have hx1 : (0.072177 : ℝ) ≤ dewpoint.beta * 1 / (dewpoint.lambda_ + 1) := by
    rw [le_div_iff (by norm_num [dewpoint.lambda_])]
    norm_num [dewpoint.beta, dewpoint.lambda_]
  have hx2 : dewpoint.beta * 1 / (dewpoint.lambda_ + 1) ≤ 0.072178 := by
    rw [div_le_iff (by norm_num [dewpoint.lambda_])]
    norm_num [dewpoint.beta, dewpoint.lambda_]
  have hdp := dewpoint.dp1_window 1 0.1 (-68) (-6.90775530) (-6.90775524)
    0.072177 0.072178 (by norm_num) hu1 hu2 hx1 hx2
    (Or.inr (by norm_num [dewpoint.beta]))
    (by rw [dewpoint.beta, dewpoint.lambda_]; rw [le_div_iff (by norm_num)]; norm_num)
    (by rw [dewpoint.beta, dewpoint.lambda_]; rw [div_le_iff (by norm_num)]; norm_num)
  have hy1 : (-6.84194 : ℝ) ≤ dewpoint.beta * (-68) / (dewpoint.lambda_ + (-68)) := by
    rw [le_div_iff (by norm_num [dewpoint.lambda_])]
    norm_num [dewpoint.beta, dewpoint.lambda_]
  have hy2 : dewpoint.beta * (-68) / (dewpoint.lambda_ + (-68)) ≤ -6.84193 := by
    rw [div_le_iff (by norm_num [dewpoint.lambda_])]
    norm_num [dewpoint.beta, dewpoint.lambda_]
  have hrh := dewpoint.relative_humidity_window 1 (-68) 0.1
    (-6.914118) (-6.914107) 0 0.0025
    (by linarith) (by linarith)
    (le_of_lt (Real.exp_pos _))
    (exp_le_of_le_neg_six _ (by norm_num))
    (by norm_num) (by norm_num)
  have htmp := dewpoint.temperature_window (-68) 0.1 1
    (-6.90775530) (-6.90775524) (-6.84194) (-6.84193) (by norm_num) hu1 hu2 hy1 hy2
    (Or.inr (by norm_num [dewpoint.beta]))
    (by rw [dewpoint.beta, dewpoint.lambda_]; rw [le_div_iff (by norm_num)]; norm_num)
    (by rw [dewpoint.beta, dewpoint.lambda_]; rw [div_le_iff (by norm_num)]; norm_num)
  exact ⟨⟨hok, hdp⟩, hrh, htmp⟩

/-- Limit scenario (−40 °C, 0.101 %) → dewpoint ≈ −90 °C with round trips. -/
lemma scenario7 :
    (dewpoint.dewpoint_all (-40) 0.101 = .ok (dewpoint.dewpoint_1_val (-40) 0.101) ∧
      |dewpoint.dewpoint_1_val (-40) 0.101 - (-90)| ≤ 0.2) ∧
    |dewpoint.relative_humidity (-40) (-90) * 100 - 0.101| ≤ 0.2 ∧
    ∃ tv, dewpoint.temperature (-90) 0.101 = .ok tv ∧ |tv - (-40)| ≤ 0.2 := by
  obtain ⟨hu1, hu2⟩ := log_win_0101
  have hok := (dewpoint.dewpoint_all_ok_general (-40) 0.101 (by norm_num) (by norm_num)
    (by norm_num) (by norm_num)).1
  have hx1 : (-3.469871 : ℝ) ≤ dewpoint.beta * (-40) / (dewpoint.lambda_ + (-40)) := by
    rw [le_div_iff (by norm_num [dewpoint.lambda_])]
    norm_num [dewpoint.beta, dewpoint.lambda_]
  have hx2 : dewpoint.beta * (-40) / (dewpoint.lambda_ + (-40)) ≤ -3.469870 := by
    rw [div_le_iff (by norm_num [dewpoint.lambda_])]
    norm_num [dewpoint.beta, dewpoint.lambda_]
  have hdp := dewpoint.dp1_window (-40) 0.101 (-90) (-6.89785431) (-6.89775524)
    (-3.469871) (-3.469870) (by norm_num) hu1 hu2 hx1 hx2
    (Or.inr (by norm_num [dewpoint.beta]))
    (by rw [dewpoint.beta, dewpoint.lambda_]; rw [le_div_iff (by norm_num)]; norm_num)
    (by rw [dewpoint.beta, dewpoint.lambda_]; rw [div_le_iff (by norm_num)]; norm_num)
  have hy1 : (-10.356584 : ℝ) ≤ dewpoint.beta * (-90) / (dewpoint.lambda_ + (-90)) := by
    rw [le_div_iff (by norm_num [dewpoint.lambda_])]
    norm_num [dewpoint.beta, dewpoint.lambda_]
  have hy2 : dewpoint.beta * (-90) / (dewpoint.lambda_ + (-90)) ≤ -10.356583 := by
    rw [div_le_iff (by norm_num [dewpoint.lambda_])]
    norm_num [dewpoint.beta, dewpoint.lambda_]
  have hrh := dewpoint.relative_humidity_window (-40) (-90) 0.101
    (-6.886714) (-6.886712) 0 0.0025
    (by linarith) (by linarith)
    (le_of_lt (Real.exp_pos _))
    (exp_le_of_le_neg_six _ (by norm_num))
    (by norm_num) (by norm_num)
  have htmp := dewpoint.temperature_window (-90) 0.101 (-40)
    (-6.89785431) (-6.89775524) (-10.356584) (-10.356583) (by norm_num) hu1 hu2 hy1 hy2
    (Or.inr (by norm_num [dewpoint.beta]))
    (by rw [dewpoint.beta, dewpoint.lambda_]; rw [le_div_iff (by norm_num)]; norm_num)
    (by rw [dewpoint.beta, dewpoint.lambda_]; rw [div_le_iff (by norm_num)]; norm_num)
  exact ⟨⟨hok, hdp⟩, hrh, htmp⟩

/-- The gap between the base-10 and natural-log Magnus exponents, as a
multiple of `-u`. -/
lemma gap_bounds (u c : ℝ) (hu : u < 0)
    (hc1 : 1.0000127 < c) (hc2 : c < 1.00001271) :
    0 < u / c - u ∧ u / c - u ≤ 0.00001271 * -u := by
  have hc0 : (0 : ℝ) < c := by linarith
  have hs : 0 < -u := by linarith
  have hkey : u / c - u = -u * (c - 1) / c := by
    field_simp
    ring
  constructor
  · rw [hkey]
    have : 0 < -u * (c - 1) := mul_pos hs (by linarith)
    positivity
  · rw [hkey, div_le_iff hc0]
    nlinarith [sq_nonneg (c - 1)]

/-- Limit scenario (100 °C, 99 %) → dewpoint ≈ 99.7 °C with round trips;
`t = 100` lies outside `[-45, 60]`, so the consistency check is verified
directly. -/
lemma scenario8 :
    (dewpoint.dewpoint_all 100 99 = .ok (dewpoint.dewpoint_1_val 100 99) ∧
      |dewpoint.dewpoint_1_val 100 99 - 99.7| ≤ 0.2) ∧
    |dewpoint.relative_humidity 100 99.7 * 100 - 99| ≤ 0.2 ∧
    ∃ tv, dewpoint.temperature 99.7 99 = .ok tv ∧ |tv - 100| ≤ 0.2 := by
  obtain ⟨hu1, hu2⟩ := log_win_99
  obtain ⟨hl10a, hl10b⟩ := log_ten_bounds
  have hc1 : (1.0000127 : ℝ) < 0.4343 * Real.log 10 := by linarith
  have hc2 : (0.4343 : ℝ) * Real.log 10 < 1.00001271 := by linarith
  have hx1 : (5.135229 : ℝ) ≤ dewpoint.beta * 100 / (dewpoint.lambda_ + 100) := by
    rw [le_div_iff (by norm_num [dewpoint.lambda_])]
    norm_num [dewpoint.beta, dewpoint.lambda_]
  have hx2 : dewpoint.beta * 100 / (dewpoint.lambda_ + 100) ≤ 5.135231 := by
    rw [div_le_iff (by norm_num [dewpoint.lambda_])]
    norm_num [dewpoint.beta, dewpoint.lambda_]
  obtain ⟨hgap_pos, hgap_le⟩ :=
    gap_bounds (Real.log ((99 : ℝ) / 100)) (0.4343 * Real.log 10)
      (by linarith) hc1 hc2
  have hLdef : dewpoint.dp_zeroeth_part 100 99 =
      Real.log ((99 : ℝ) / 100) + dewpoint.beta * 100 / (dewpoint.lambda_ + 100) :=
    rfl
  have hHdef := dewpoint.dewpoint_3_H_eq 100 99 (by norm_num)
  have hbeta : dewpoint.beta = 17.62 := rfl
  have hLH : dewpoint.dp_zeroeth_part 100 99 < dewpoint.dewpoint_3_H 100 99 := by
    rw [hLdef, hHdef]
    linarith
  have hbL_pos : 0 < dewpoint.beta - dewpoint.dp_zeroeth_part 100 99 := by
    rw [hLdef]
    linarith
  have hbH_pos : 0 < dewpoint.beta - dewpoint.dewpoint_3_H 100 99 := by
    rw [hHdef]
    have hdivneg : Real.log ((99 : ℝ) / 100) / (0.4343 * Real.log 10) < 0 :=
      div_neg_of_neg_of_pos (by linarith) (by linarith)
    linarith
  have hbL_lo : (12.48 : ℝ) ≤ dewpoint.beta - dewpoint.dp_zeroeth_part 100 99 := by
    rw [hLdef]
    linarith
  have hbH_lo : (12.48 : ℝ) ≤ dewpoint.beta - dewpoint.dewpoint_3_H 100 99 := by
    rw [hHdef]
    have hdiv_ge : Real.log ((99 : ℝ) / 100) / (0.4343 * Real.log 10) ≥
        Real.log ((99 : ℝ) / 100) := by
      rw [hLdef] at hLH
      rw [hHdef] at hLH
      linarith
    linarith
  have hprod : 0 < (dewpoint.beta - dewpoint.dp_zeroeth_part 100 99) *
      (dewpoint.beta - dewpoint.dewpoint_3_H 100 99) := mul_pos hbL_pos hbH_pos
  have hlb : dewpoint.lambda_ * dewpoint.beta = 4283.7744 := by
    norm_num [dewpoint.lambda_, dewpoint.beta]
  have hgapLH : dewpoint.dewpoint_3_H 100 99 - dewpoint.dp_zeroeth_part 100 99 ≤
      0.00001271 * (1 / 99) := by
    rw [hLdef, hHdef]
    nlinarith
  have hsize : dewpoint.lambda_ * dewpoint.beta *
      (dewpoint.dewpoint_3_H 100 99 - dewpoint.dp_zeroeth_part 100 99) <
      0.001 * ((dewpoint.beta - dewpoint.dp_zeroeth_part 100 99) *
        (dewpoint.beta - dewpoint.dewpoint_3_H 100 99)) := by
    rw [hlb]
    nlinarith [mul_le_mul hbL_lo hbH_lo (by norm_num) (by linarith)]
  have hchain := dewpoint.assert_chain_of_bounds
    (dewpoint.dp_zeroeth_part 100 99) (dewpoint.dewpoint_3_H 100 99)
    hLH hprod hsize
  have h1v : dewpoint.dewpoint_1_val 100 99 =
      dewpoint.lambda_ * dewpoint.dp_zeroeth_part 100 99 /
        (dewpoint.beta - dewpoint.dp_zeroeth_part 100 99) := by
    rw [dewpoint.dewpoint_1_val, dewpoint.log_vp_over_alpha 100 99 (by norm_num)]
  have h2v : dewpoint.dewpoint_2_val 100 99 =
      dewpoint.lambda_ * dewpoint.dp_zeroeth_part 100 99 /
        (dewpoint.beta - dewpoint.dp_zeroeth_part 100 99) := rfl
  have h3v : dewpoint.dewpoint_3_val 100 99 =
      dewpoint.lambda_ * dewpoint.dewpoint_3_H 100 99 /
        (dewpoint.beta - dewpoint.dewpoint_3_H 100 99) := rfl
  have hcond : |dewpoint.dewpoint_2_val 100 99 - dewpoint.dewpoint_1_val 100 99| <
      |dewpoint.dewpoint_3_val 100 99 - dewpoint.dewpoint_1_val 100 99| ∧
      |dewpoint.dewpoint_3_val 100 99 - dewpoint.dewpoint_1_val 100 99| < 0.001 := by
    rw [h1v, h2v, h3v]
    exact hchain
  have hok : dewpoint.dewpoint_all 100 99 = .ok (dewpoint.dewpoint_1_val 100 99) := by
    rw [dewpoint.dewpoint_all_unfold 100 99 (by norm_num), if_pos hcond]
  have hdp := dewpoint.dp1_window 100 99 99.7 (-(1 / 99)) (-0.01)
    5.135229 5.135231 (by norm_num) hu1 hu2 hx1 hx2
    (Or.inr (by norm_num [dewpoint.beta]))
    (by rw [dewpoint.beta, dewpoint.lambda_]; rw [le_div_iff (by norm_num)]; norm_num)
    (by rw [dewpoint.beta, dewpoint.lambda_]; rw [div_le_iff (by norm_num)]; norm_num)
  have hy1 : (5.124303 : ℝ) ≤ dewpoint.beta * 99.7 / (dewpoint.lambda_ + 99.7) := by
    rw [le_div_iff (by norm_num [dewpoint.lambda_])]
    norm_num [dewpoint.beta, dewpoint.lambda_]
  have hy2 : dewpoint.beta * 99.7 / (dewpoint.lambda_ + 99.7) ≤ 5.124305 := by
    rw [div_le_iff (by norm_num [dewpoint.lambda_])]
    norm_num [dewpoint.beta, dewpoint.lambda_]
  have hcast1 : ((0 : ℕ) : ℝ) + 0.010924 = 0.010924 := by push_cast; norm_num
  have hcast2 : ((0 : ℕ) : ℝ) + 0.010928 = 0.010928 := by push_cast; norm_num
  have hexp_lo : (1.01092 : ℝ) ≤ Real.exp 0.010924 := by
    have h := exp_add_nat_lower 0 0.010924 1.01092 (by norm_num) (by norm_num)
    rwa [hcast1] at h
  have hexp_hi : Real.exp 0.010928 ≤ 1.011 := by
    have h := exp_add_nat_upper 0 0.010928 1.011 (by norm_num) (by norm_num) (by norm_num)
    rwa [hcast2] at h
  have hrh := dewpoint.relative_humidity_window 100 99.7 99
    (-0.010928) (-0.010924) ((1.011 : ℝ)⁻¹) ((1.01092 : ℝ)⁻¹)
    (by linarith) (by linarith)
    (by rw [show (-0.010928 : ℝ) = -(0.010928) by norm_num]
        exact le_exp_neg _ _ hexp_hi)
    (by rw [show (-0.010924 : ℝ) = -(0.010924) by norm_num]
        exact exp_neg_le _ _ (by norm_num) hexp_lo)
    (by norm_num) (by norm_num)
  have htmp := dewpoint.temperature_window 99.7 99 100
    (-(1 / 99)) (-0.01) 5.124303 5.124305 (by norm_num) hu1 hu2 hy1 hy2
    (Or.inr (by norm_num [dewpoint.beta]))
    (by rw [dewpoint.beta, dewpoint.lambda_]; rw [le_div_iff (by norm_num)]; norm_num)
    (by rw [dewpoint.beta, dewpoint.lambda_]; rw [div_le_iff (by norm_num)]; norm_num)
  exact ⟨⟨hok, hdp⟩, hrh, htmp⟩

/-- Limit scenario (−260 °C, 1 %) → dewpoint ≈ −260.3 °C with round trips;
here `λ + t < 0`, so all Magnus denominators are negative and the consistency
check is verified directly. -/
lemma scenario5 :
    (dewpoint.dewpoint_all (-260) 1 = .ok (dewpoint.dewpoint_1_val (-260) 1) ∧
      |dewpoint.dewpoint_1_val (-260) 1 - (-260.3)| ≤ 0.2) ∧
    |dewpoint.relative_humidity (-260) (-260.3) * 100 - 1| ≤ 0.2 ∧
    ∃ tv, dewpoint.temperature (-260.3) 1 = .ok tv ∧ |tv - (-260)| ≤ 0.2 := by
  obtain ⟨hu1, hu2⟩ := log_win_1
  obtain ⟨hl10a, hl10b⟩ := log_ten_bounds
  have hc1 : (1.0000127 : ℝ) < 0.4343 * Real.log 10 := by linarith
  have hc2 : (0.4343 : ℝ) * Real.log 10 < 1.00001271 := by linarith
  have hneg : dewpoint.lambda_ + (-260) < 0 := by norm_num [dewpoint.lambda_]
  have hx1 : (271.398104 : ℝ) ≤ dewpoint.beta * (-260) / (dewpoint.lambda_ + (-260)) := by
    rw [le_div_iff_of_neg hneg]
    norm_num [dewpoint.beta, dewpoint.lambda_]
  have hx2 : dewpoint.beta * (-260) / (dewpoint.lambda_ + (-260)) ≤ 271.398105 := by
    rw [div_le_iff_of_neg hneg]
    norm_num [dewpoint.beta, dewpoint.lambda_]
  obtain ⟨hgap_pos, hgap_le⟩ :=
    gap_bounds (Real.log ((1 : ℝ) / 100)) (0.4343 * Real.log 10)
      (by linarith) hc1 hc2
  have hLdef : dewpoint.dp_zeroeth_part (-260) 1 =
      Real.log ((1 : ℝ) / 100) +
        dewpoint.beta * (-260) / (dewpoint.lambda_ + (-260)) := rfl
  have hHdef := dewpoint.dewpoint_3_H_eq (-260) 1 (by norm_num)
  have hbeta : dewpoint.beta = 17.62 := rfl
  have hLH : dewpoint.dp_zeroeth_part (-260) 1 < dewpoint.dewpoint_3_H (-260) 1 := by
    rw [hLdef, hHdef]
    linarith
  have hbL_hi : dewpoint.beta - dewpoint.dp_zeroeth_part (-260) 1 ≤ -249.1729 := by
    rw [hLdef]
    linarith
  have hbH_hi : dewpoint.beta - dewpoint.dewpoint_3_H (-260) 1 ≤ -249.1729 := by
    have h := hLH
    rw [hLdef] at h
    rw [hHdef]
    rw [hLdef] at hbL_hi
    linarith
  have hprod : 0 < (dewpoint.beta - dewpoint.dp_zeroeth_part (-260) 1) *
      (dewpoint.beta - dewpoint.dewpoint_3_H (-260) 1) :=
    mul_pos_of_neg_of_neg (by linarith) (by linarith)
  have hprod_lo : (62087 : ℝ) ≤
      (dewpoint.beta - dewpoint.dp_zeroeth_part (-260) 1) *
        (dewpoint.beta - dewpoint.dewpoint_3_H (-260) 1) := by
    nlinarith [mul_nonneg
      (by linarith : (0 : ℝ) ≤ -(dewpoint.beta - dewpoint.dp_zeroeth_part (-260) 1) - 249.1729)
      (by linarith : (0 : ℝ) ≤ -(dewpoint.beta - dewpoint.dewpoint_3_H (-260) 1) - 249.1729)]
  have hlb : dewpoint.lambda_ * dewpoint.beta = 4283.7744 := by
    norm_num [dewpoint.lambda_, dewpoint.beta]
  have hgapLH : dewpoint.dewpoint_3_H (-260) 1 - dewpoint.dp_zeroeth_part (-260) 1 ≤
      0.00001271 * 4.60517020 := by
    rw [hLdef, hHdef]
    nlinarith
  have hsize : dewpoint.lambda_ * dewpoint.beta *
      (dewpoint.dewpoint_3_H (-260) 1 - dewpoint.dp_zeroeth_part (-260) 1) <
      0.001 * ((dewpoint.beta - dewpoint.dp_zeroeth_part (-260) 1) *
        (dewpoint.beta - dewpoint.dewpoint_3_H (-260) 1)) := by
    rw [hlb]
    nlinarith
  have hchain := dewpoint.assert_chain_of_bounds
    (dewpoint.dp_zeroeth_part (-260) 1) (dewpoint.dewpoint_3_H (-260) 1)
    hLH hprod hsize
  have h1v : dewpoint.dewpoint_1_val (-260) 1 =
      dewpoint.lambda_ * dewpoint.dp_zeroeth_part (-260) 1 /
        (dewpoint.beta - dewpoint.dp_zeroeth_part (-260) 1) := by
    rw [dewpoint.dewpoint_1_val, dewpoint.log_vp_over_alpha (-260) 1 (by norm_num)]
  have h2v : dewpoint.dewpoint_2_val (-260) 1 =
      dewpoint.lambda_ * dewpoint.dp_zeroeth_part (-260) 1 /
        (dewpoint.beta - dewpoint.dp_zeroeth_part (-260) 1) := rfl
  have h3v : dewpoint.dewpoint_3_val (-260) 1 =
      dewpoint.lambda_ * dewpoint.dewpoint_3_H (-260) 1 /
        (dewpoint.beta - dewpoint.dewpoint_3_H (-260) 1) := rfl
  have hcond : |dewpoint.dewpoint_2_val (-260) 1 - dewpoint.dewpoint_1_val (-260) 1| <
      |dewpoint.dewpoint_3_val (-260) 1 - dewpoint.dewpoint_1_val (-260) 1| ∧
      |dewpoint.dewpoint_3_val (-260) 1 - dewpoint.dewpoint_1_val (-260) 1| < 0.001 := by
    rw [h1v, h2v, h3v]
    exact hchain
  have hok : dewpoint.dewpoint_all (-260) 1 = .ok (dewpoint.dewpoint_1_val (-260) 1) := by
    rw [dewpoint.dewpoint_all_unfold (-260) 1 (by norm_num), if_pos hcond]
  have hdp := dewpoint.dp1_window (-260) 1 (-260.3) (-4.60517020) (-4.60517016)
    271.398104 271.398105 (by norm_num) hu1 hu2 hx1 hx2
    (Or.inl (by norm_num [dewpoint.beta]))
    (by rw [dewpoint.beta, dewpoint.lambda_]; norm_num)
    (by rw [dewpoint.beta, dewpoint.lambda_]; norm_num)
  have hnegy : dewpoint.lambda_ + (-260.3) < 0 := by norm_num [dewpoint.lambda_]
  have hy1 : (266.96655 : ℝ) ≤ dewpoint.beta * (-260.3) / (dewpoint.lambda_ + (-260.3)) := by
    rw [le_div_iff_of_neg hnegy]
    norm_num [dewpoint.beta, dewpoint.lambda_]
  have hy2 : dewpoint.beta * (-260.3) / (dewpoint.lambda_ + (-260.3)) ≤ 266.96663 := by
    rw [div_le_iff_of_neg hnegy]
    norm_num [dewpoint.beta, dewpoint.lambda_]
  have hcast1 : ((4 : ℕ) : ℝ) + 0.431474 = 4.431474 := by push_cast; norm_num
  have hcast2 : ((4 : ℕ) : ℝ) + 0.431555 = 4.431555 := by push_cast; norm_num
  have hexp_lo : (84.03 : ℝ) ≤ Real.exp 4.431474 := by
    have h := exp_add_nat_lower 4 0.431474 84.03 (by norm_num) (by norm_num)
    rwa [hcast1] at h
  have hexp_hi : Real.exp 4.431555 ≤ 84.07 := by
    have h := exp_add_nat_upper 4 0.431555 84.07 (by norm_num) (by norm_num) (by norm_num)
    rwa [hcast2] at h
  have hrh := dewpoint.relative_humidity_window (-260) (-260.3) 1
    (-4.431555) (-4.431474) ((84.07 : ℝ)⁻¹) ((84.03 : ℝ)⁻¹)
    (by linarith) (by linarith)
    (by rw [show (-4.431555 : ℝ) = -(4.431555) by norm_num]
        exact le_exp_neg _ _ hexp_hi)
    (by rw [show (-4.431474 : ℝ) = -(4.431474) by norm_num]
        exact exp_neg_le _ _ (by norm_num) hexp_lo)
    (by norm_num) (by norm_num)
  have htmp := dewpoint.temperature_window (-260.3) 1 (-260)
    (-4.60517020) (-4.60517016) 266.96655 266.96663 (by norm_num) hu1 hu2 hy1 hy2
    (Or.inl (by norm_num [dewpoint.beta]))
    (by rw [dewpoint.beta, dewpoint.lambda_]; norm_num)
    (by rw [dewpoint.beta, dewpoint.lambda_]; norm_num)
  exact ⟨⟨hok, hdp⟩, hrh, htmp⟩

/-- C7: for each of the eight test scenarios, `dewpoint_all` returns a value
within ±0.2 °C of the listed expected dewpoint, and at the listed triple
`(T, RH, Td)` also `relative_humidity(T, Td) · 100` is within 0.2 of `RH` and
`temperature(Td, RH)` is within 0.2 of `T`
(src/test_dewpoint.py, `DewpointApproximationTests` and `DewpointLimitTests`). -/
theorem c7_known_value_scenarios :
    ((dewpoint.dewpoint_all 25.14 32 = .ok (dewpoint.dewpoint_1_val 25.14 32) ∧
        |dewpoint.dewpoint_1_val 25.14 32 - 7.335| ≤ 0.2) ∧
      |dewpoint.relative_humidity 25.14 7.335 * 100 - 32| ≤ 0.2 ∧
      (∃ tv, dewpoint.temperature 7.335 32 = .ok tv ∧ |tv - 25.14| ≤ 0.2)) ∧
    ((dewpoint.dewpoint_all 25 10 = .ok (dewpoint.dewpoint_1_val 25 10) ∧
        |dewpoint.dewpoint_1_val 25 10 - (-8.77)| ≤ 0.2) ∧
      |dewpoint.relative_humidity 25 (-8.77) * 100 - 10| ≤ 0.2 ∧
      (∃ tv, dewpoint.temperature (-8.77) 10 = .ok tv ∧ |tv - 25| ≤ 0.2)) ∧
    ((dewpoint.dewpoint_all 50 90 = .ok (dewpoint.dewpoint_1_val 50 90) ∧
        |dewpoint.dewpoint_1_val 50 90 - 47.90| ≤ 0.2) ∧
      |dewpoint.relative_humidity 50 47.90 * 100 - 90| ≤ 0.2 ∧
      (∃ tv, dewpoint.temperature 47.90 90 = .ok tv ∧ |tv - 50| ≤ 0.2)) ∧
    ((dewpoint.dewpoint_all 25 50 = .ok (dewpoint.dewpoint_1_val 25 50) ∧
        |dewpoint.dewpoint_1_val 25 50 - 13.85| ≤ 0.2) ∧
      |dewpoint.relative_humidity 25 13.85 * 100 - 50| ≤ 0.2 ∧
      (∃ tv, dewpoint.temperature 13.85 50 = .ok tv ∧ |tv - 25| ≤ 0.2)) ∧
    ((dewpoint.dewpoint_all (-260) 1 = .ok (dewpoint.dewpoint_1_val (-260) 1) ∧
        |dewpoint.dewpoint_1_val (-260) 1 - (-260.3)| ≤ 0.2) ∧
      |dewpoint.relative_humidity (-260) (-260.3) * 100 - 1| ≤ 0.2 ∧
      (∃ tv, dewpoint.temperature (-260.3) 1 = .ok tv ∧ |tv - (-260)| ≤ 0.2)) ∧
    ((dewpoint.dewpoint_all 1 0.1 = .ok (dewpoint.dewpoint_1_val 1 0.1) ∧
        |dewpoint.dewpoint_1_val 1 0.1 - (-68)| ≤ 0.2) ∧
      |dewpoint.relative_humidity 1 (-68) * 100 - 0.1| ≤ 0.2 ∧
      (∃ tv, dewpoint.temperature (-68) 0.1 = .ok tv ∧ |tv - 1| ≤ 0.2)) ∧
    ((dewpoint.dewpoint_all (-40) 0.101 = .ok (dewpoint.dewpoint_1_val (-40) 0.101) ∧
        |dewpoint.dewpoint_1_val (-40) 0.101 - (-90)| ≤ 0.2) ∧
      |dewpoint.relative_humidity (-40) (-90) * 100 - 0.101| ≤ 0.2 ∧
      (∃ tv, dewpoint.temperature (-90) 0.101 = .ok tv ∧ |tv - (-40)| ≤ 0.2)) ∧
    ((dewpoint.dewpoint_all 100 99 = .ok (dewpoint.dewpoint_1_val 100 99) ∧
        |dewpoint.dewpoint_1_val 100 99 - 99.7| ≤ 0.2) ∧
      |dewpoint.relative_humidity 100 99.7 * 100 - 99| ≤ 0.2 ∧
      (∃ tv, dewpoint.temperature 99.7 99 = .ok tv ∧ |tv - 100| ≤ 0.2)) :=
  ⟨scenario1, scenario2, scenario3, scenario4, scenario5, scenario6,
    scenario7, scenario8⟩
